import Mathlib

/-!
# E01_rendering: the asteroid shooter's simulation step

A shallow embedding of `src/exercises/E01_rendering.cpp`.

* A `float` value is a rational number; infinities and NaN are outside the model. The four
  arithmetic operations on `float` are a parameter `F : FloatArith` of every function that
  computes, written out operation by operation in the order the C expression evaluates them.
  A property stated for every `F` holds whatever each operation rounds to;
  `FloatArith.exact` is arithmetic without rounding. Negation, comparisons and the
  literals of the program are exact.
* The fixed arrays `asteroids[NUM_ASTEROIDS]` and `projectiles[PROJECTILE_POOL_SIZE]`
  are total functions on `Fin 10` and `Fin 16`; a pointer into an array is its index.
* `SDL_randf()` is the `n`-th value of a stream `randf : ℕ → ℚ`, where `n` is the number
  of draws made so far (`World.rand_calls`).
* Calls into the platform library that only produce output (tint, draw, log) are appended
  to `World.trace`, in program order; each execution of the scoring branch of `update`
  is marked there as well (`Event.Collision`), so that hits can be counted.
* `int player_score` is a 32-bit two's-complement integer: `player_score += 1` wraps
  from `INT_MAX` to `INT_MIN` (`wrap_int`).
-/

namespace E01

abbrev NUM_ASTEROIDS : Nat := 10

abbrev PROJECTILE_POOL_SIZE : Nat := 16

/-- The arithmetic of `float`: what each of the four operations returns. -/
structure FloatArith where
  add : ℚ → ℚ → ℚ
  sub : ℚ → ℚ → ℚ
  mul : ℚ → ℚ → ℚ
  div : ℚ → ℚ → ℚ

/-- Arithmetic without rounding. -/
def FloatArith.exact : FloatArith :=
  { add := fun a b => a + b, sub := fun a b => a - b, mul := fun a b => a * b,
    div := fun a b => a / b }

/-- The largest value of `int`. -/
def INT_MAX : Int := 2147483647

/-- The smallest value of `int`. -/
def INT_MIN : Int := -2147483648

/-- The value of an `int` computation whose exact result is `x`. -/
def wrap_int (x : Int) : Int := (x + 2 ^ 31) % 2 ^ 32 - 2 ^ 31

structure SDL_FPoint where
  x : ℚ
  y : ℚ
deriving DecidableEq

structure SDL_FRect where
  x : ℚ
  y : ℚ
  w : ℚ
  h : ℚ
deriving DecidableEq

/-- The fields of `SDLContext` that the simulation reads (the renderer handle is the
platform's and is represented by the trace). -/
structure SDLContext where
  window_w : ℚ
  window_h : ℚ
  delta : ℚ
  btn_pressed_up : Bool
  btn_pressed_down : Bool
  btn_pressed_left : Bool
  btn_pressed_right : Bool
  btn_pressed_fire : Bool
deriving DecidableEq

/-- A texture pointer is an abstract handle. -/
structure Entity where
  position : SDL_FPoint
  size : ℚ
  velocity : ℚ
  rect : SDL_FRect
  texture_atlas : Nat
  texture_rect : SDL_FRect
deriving DecidableEq

structure Projectile where
  position : SDL_FPoint
  size : ℚ
  velocity : ℚ
  rect : SDL_FRect
  active : Bool
deriving DecidableEq

structure GameState where
  player : Entity
  asteroids : Fin NUM_ASTEROIDS → Entity
  projectiles : Fin PROJECTILE_POOL_SIZE → Projectile
  texture_atlas : Nat
  player_score : Int

/-- Output actions of the frame, in program order. `Collision p k` marks one execution of
the scoring branch of `update` for projectile slot `p` and asteroid slot `k`; the other
constructors are the library calls of the same name. -/
inductive Event where
  | SetTextureColorMod (texture : Nat) (r g b : Nat)
  | RenderTexture (texture : Nat) (src dst : SDL_FRect)
  | SetRenderDrawColor (r g b a : Nat)
  | RenderFillRect (rect : SDL_FRect)
  | Log (msg : String)
  | Collision (projectile : Fin PROJECTILE_POOL_SIZE) (asteroid : Fin NUM_ASTEROIDS)
deriving DecidableEq

/-- The game state together with what the platform holds: how many random numbers were
drawn and what was emitted. -/
structure World where
  game_state : GameState
  rand_calls : Nat
  trace : List Event

def distance_between_sq (F : FloatArith) (a b : SDL_FPoint) : ℚ :=
  let dx := F.sub a.x b.x
  let dy := F.sub a.y b.y
  F.add (F.mul dx dx) (F.mul dy dy)

def deactivate_projectile (projectile : Projectile) : Projectile :=
  { projectile with active := false }

/-- The scan of `spawn_projectile` over the slots `slots`, returning at the first
inactive slot. -/
def spawn_projectile_scan (F : FloatArith) (game_state : GameState) :
    List (Fin PROJECTILE_POOL_SIZE) → Option (Fin PROJECTILE_POOL_SIZE × GameState)
  | [] => none
  | i :: slots =>
    let projectile := game_state.projectiles i
    if !projectile.active then
      let projectile := { projectile with active := true }
      let projectile := { projectile with size := 16 }
      let projectile := { projectile with position := { projectile.position with
        x := F.sub (F.add game_state.player.position.x (F.div game_state.player.size 2))
          (F.div projectile.size 2) } }
      let projectile := { projectile with position := { projectile.position with
        y := F.sub game_state.player.position.y projectile.size } }
      let projectile := { projectile with
        velocity := F.mul (- game_state.player.velocity) 2 }
      let projectile := { projectile with rect := { projectile.rect with w := projectile.size } }
      let projectile := { projectile with rect := { projectile.rect with h := projectile.size } }
      some (i, { game_state with
        projectiles := Function.update game_state.projectiles i projectile })
    else
      spawn_projectile_scan F game_state slots

/-- The function `spawn_projectile`: the returned pointer is the slot index, `none` for NULL. -/
def spawn_projectile (F : FloatArith) (_context : SDLContext) (world : World) :
    Option (Fin PROJECTILE_POOL_SIZE) × World :=
  match spawn_projectile_scan F world.game_state (List.finRange PROJECTILE_POOL_SIZE) with
  | some (i, game_state) => (some i, { world with game_state := game_state })
  | none =>
    (none, { world with
      trace := world.trace ++ [Event.Log "WARNING: no more projectiles available in the pool\n"] })

/-- The body of `respawn_asteroid`, given the two values `SDL_randf()` returns
(`r1` for the horizontal position, `r2` for the velocity). -/
def respawn_asteroid (F : FloatArith) (context : SDLContext) (asteroid : Entity)
    (r1 r2 : ℚ) : Entity :=
  let asteroid := if asteroid.size ≤ 0 then { asteroid with size := 64 } else asteroid
  let asteroid := { asteroid with position := { asteroid.position with
    x := F.add asteroid.size (F.mul r1 (F.sub context.window_w (F.mul asteroid.size 2))) } }
  let asteroid := { asteroid with position := { asteroid.position with y := -asteroid.size } }
  let asteroid := { asteroid with
    velocity := F.add (F.mul asteroid.size 2) (F.mul (F.mul r2 asteroid.size) 4) }
  let asteroid := { asteroid with rect := { asteroid.rect with x := asteroid.position.x } }
  let asteroid := { asteroid with rect := { asteroid.rect with y := asteroid.position.y } }
  let asteroid := { asteroid with rect := { asteroid.rect with w := asteroid.size } }
  { asteroid with rect := { asteroid.rect with h := asteroid.size } }

/-- The call `respawn_asteroid(context, &game_state->asteroids[i])`. -/
def respawn_asteroid_at (F : FloatArith) (context : SDLContext) (randf : Nat → ℚ)
    (i : Fin NUM_ASTEROIDS) (world : World) : World :=
  { world with
    game_state := { world.game_state with
      asteroids := Function.update world.game_state.asteroids i
        (respawn_asteroid F context (world.game_state.asteroids i)
          (randf world.rand_calls) (randf (world.rand_calls + 1))) }
    rand_calls := world.rand_calls + 2 }

/-- The call `deactivate_projectile(&game_state->projectiles[i])`. -/
def deactivate_projectile_at (i : Fin PROJECTILE_POOL_SIZE) (game_state : GameState) :
    GameState :=
  { game_state with
    projectiles := Function.update game_state.projectiles i
      (deactivate_projectile (game_state.projectiles i)) }

def reset_game (F : FloatArith) (context : SDLContext) (randf : Nat → ℚ) (world : World) :
    World :=
  let game_state := world.game_state
  let game_state := { game_state with player_score := 0 }
  let game_state := { game_state with player := { game_state.player with
    position := { game_state.player.position with
      x := F.sub (F.div context.window_w 2) (F.div game_state.player.size 2) } } }
  let game_state := { game_state with player := { game_state.player with
    position := { game_state.player.position with
      y := F.sub context.window_h (F.mul game_state.player.size 2) } } }
  let game_state := { game_state with player := { game_state.player with
    rect := { game_state.player.rect with x := game_state.player.position.x } } }
  let game_state := { game_state with player := { game_state.player with
    rect := { game_state.player.rect with y := game_state.player.position.y } } }
  let world := { world with game_state := game_state }
  let world := (List.finRange NUM_ASTEROIDS).foldl
    (fun world i => respawn_asteroid_at F context randf i world) world
  { world with
    game_state := (List.finRange PROJECTILE_POOL_SIZE).foldl
      (fun game_state i => deactivate_projectile_at i game_state) world.game_state }

/-- The four key tests at the head of `update`: the player's movement before wrapping. -/
def player_movement (F : FloatArith) (context : SDLContext) (entity_player : Entity) : Entity :=
  let entity_player := if context.btn_pressed_up then
    { entity_player with position := { entity_player.position with
      y := F.sub entity_player.position.y (F.mul context.delta entity_player.velocity) } }
    else entity_player
  let entity_player := if context.btn_pressed_down then
    { entity_player with position := { entity_player.position with
      y := F.add entity_player.position.y (F.mul context.delta entity_player.velocity) } }
    else entity_player
  let entity_player := if context.btn_pressed_left then
    { entity_player with position := { entity_player.position with
      x := F.sub entity_player.position.x (F.mul context.delta entity_player.velocity) } }
    else entity_player
  if context.btn_pressed_right then
    { entity_player with position := { entity_player.position with
      x := F.add entity_player.position.x (F.mul context.delta entity_player.velocity) } }
  else entity_player

/-- The first block of `update`: player movement, wrapping and draw. -/
def update_player (F : FloatArith) (context : SDLContext) (world : World) : World :=
  let entity_player := player_movement F context world.game_state.player
  let cx := F.add entity_player.position.x (F.div entity_player.size 2)
  let cy := F.add entity_player.position.y (F.div entity_player.size 2)
  let cx := if cx < 0 then F.add cx context.window_w else cx
  let cx := if cx > context.window_w then F.sub cx context.window_w else cx
  let cy := if cy < 0 then F.add cy context.window_h else cy
  let cy := if cy > context.window_h then F.sub cy context.window_h else cy
  let entity_player := { entity_player with position := { entity_player.position with
    x := F.sub cx (F.div entity_player.size 2) } }
  let entity_player := { entity_player with position := { entity_player.position with
    y := F.sub cy (F.div entity_player.size 2) } }
  let entity_player := { entity_player with rect := { entity_player.rect with
    x := entity_player.position.x } }
  let entity_player := { entity_player with rect := { entity_player.rect with
    y := entity_player.position.y } }
  { world with
    game_state := { world.game_state with player := entity_player }
    trace := world.trace ++
      [Event.SetTextureColorMod entity_player.texture_atlas 0xFF 0xFF 0xFF,
       Event.RenderTexture entity_player.texture_atlas entity_player.texture_rect
         entity_player.rect] }

def warning_distance_sq : ℚ := 100 * 100

def collision_distance_sq : ℚ := 64 * 64

/-- The head of an iteration of the asteroid loop of `update`, for slot `i`: the downward
move and the rectangle. -/
def asteroid_move (F : FloatArith) (context : SDLContext) (i : Fin NUM_ASTEROIDS)
    (world : World) : World :=
  let asteroid_curr := world.game_state.asteroids i
  let asteroid_curr := { asteroid_curr with position := { asteroid_curr.position with
    y := F.add asteroid_curr.position.y (F.mul context.delta asteroid_curr.velocity) } }
  let asteroid_curr := { asteroid_curr with rect := { asteroid_curr.rect with
    x := asteroid_curr.position.x } }
  let asteroid_curr := { asteroid_curr with rect := { asteroid_curr.rect with
    y := asteroid_curr.position.y } }
  { world with game_state := { world.game_state with
    asteroids := Function.update world.game_state.asteroids i asteroid_curr } }

/-- The distance test of the asteroid loop of `update`, for slot `i`: collision (tint red
and `reset_game`), warning tint, or neutral tint. -/
def asteroid_check_player (F : FloatArith) (context : SDLContext) (randf : Nat → ℚ)
    (i : Fin NUM_ASTEROIDS) (world : World) : World :=
  let asteroid_curr := world.game_state.asteroids i
  let distance_sq :=
    distance_between_sq F asteroid_curr.position world.game_state.player.position
  if distance_sq < collision_distance_sq then
    reset_game F context randf { world with
      trace := world.trace ++ [Event.SetTextureColorMod asteroid_curr.texture_atlas 0xFF 0x00 0x00] }
  else if distance_sq < warning_distance_sq then
    { world with
      trace := world.trace ++ [Event.SetTextureColorMod asteroid_curr.texture_atlas 0xCC 0xCC 0x00] }
  else
    { world with
      trace := world.trace ++ [Event.SetTextureColorMod asteroid_curr.texture_atlas 0xFF 0xFF 0xFF] }

/-- The tail of an iteration of the asteroid loop of `update`, for slot `i`: draw, and
respawn when the asteroid is below the window. -/
def asteroid_draw_and_recycle (F : FloatArith) (context : SDLContext) (randf : Nat → ℚ)
    (i : Fin NUM_ASTEROIDS) (world : World) : World :=
  let asteroid_curr := world.game_state.asteroids i
  let world := { world with
    trace := world.trace ++ [Event.RenderTexture asteroid_curr.texture_atlas
      asteroid_curr.texture_rect asteroid_curr.rect] }
  if asteroid_curr.position.y > F.add context.window_h asteroid_curr.size then
    respawn_asteroid_at F context randf i world
  else
    world

/-- One iteration of the asteroid loop of `update`, for slot `i`. -/
def update_asteroid (F : FloatArith) (context : SDLContext) (randf : Nat → ℚ)
    (i : Fin NUM_ASTEROIDS) (world : World) : World :=
  asteroid_draw_and_recycle F context randf i
    (asteroid_check_player F context randf i (asteroid_move F context i world))

/-- The collision test of the inner loop of `update`. -/
def collides (F : FloatArith) (asteroid_curr : Entity) (projectile : Projectile) : Bool :=
  let asteroid_center : SDL_FPoint :=
    { x := F.add asteroid_curr.position.x (F.div asteroid_curr.size 2),
      y := F.add asteroid_curr.position.y (F.div asteroid_curr.size 2) }
  let projectile_center : SDL_FPoint :=
    { x := F.add projectile.position.x (F.div projectile.size 2),
      y := F.add projectile.position.y (F.div projectile.size 2) }
  let radius_sum := F.add (F.div asteroid_curr.size 2) (F.div projectile.size 2)
  decide (distance_between_sq F asteroid_center projectile_center < F.mul radius_sum radius_sum)

/-- The body of the collision branch of `update`: score, respawn the asteroid in slot `i`,
deactivate the projectile in slot `p`. -/
def collision_hit (F : FloatArith) (context : SDLContext) (randf : Nat → ℚ)
    (p : Fin PROJECTILE_POOL_SIZE) (i : Fin NUM_ASTEROIDS) (world : World) : World :=
  let world := { world with
    game_state := { world.game_state with
      player_score := wrap_int (world.game_state.player_score + 1) }
    trace := world.trace ++ [Event.Collision p i] }
  let world := respawn_asteroid_at F context randf i world
  { world with game_state := deactivate_projectile_at p world.game_state }

/-- The inner loop of `update` for projectile slot `p`, over the asteroid slots given,
leaving at the first hit (`break`). -/
def check_collisions (F : FloatArith) (context : SDLContext) (randf : Nat → ℚ)
    (p : Fin PROJECTILE_POOL_SIZE) : List (Fin NUM_ASTEROIDS) → World → World
  | [], world => world
  | i :: slots, world =>
    if collides F (world.game_state.asteroids i) (world.game_state.projectiles p) then
      collision_hit F context randf p i world
    else
      check_collisions F context randf p slots world

/-- The first half of an iteration of the projectile loop of `update`, for an active slot
`p`: move, draw, and deactivate when off screen. -/
def advance_projectile (F : FloatArith) (context : SDLContext) (p : Fin PROJECTILE_POOL_SIZE)
    (world : World) : World :=
  let projectile := world.game_state.projectiles p
  let projectile := { projectile with position := { projectile.position with
    y := F.add projectile.position.y (F.mul context.delta projectile.velocity) } }
  let projectile := { projectile with rect := { projectile.rect with x := projectile.position.x } }
  let projectile := { projectile with rect := { projectile.rect with y := projectile.position.y } }
  let projectile := { projectile with rect := { projectile.rect with w := projectile.size } }
  let projectile := { projectile with rect := { projectile.rect with h := projectile.size } }
  let world := { world with
    trace := world.trace ++
      [Event.SetRenderDrawColor 0xFF 0xFF 0xFF 0xFF, Event.RenderFillRect projectile.rect] }
  let projectile :=
    if F.add projectile.position.y projectile.size < 0 ∨
        projectile.position.y > context.window_h then
      deactivate_projectile projectile
    else projectile
  { world with game_state := { world.game_state with
    projectiles := Function.update world.game_state.projectiles p projectile } }

/-- One iteration of the projectile loop of `update`, for slot `p`. -/
def update_projectile (F : FloatArith) (context : SDLContext) (randf : Nat → ℚ)
    (p : Fin PROJECTILE_POOL_SIZE) (world : World) : World :=
  if (world.game_state.projectiles p).active then
    check_collisions F context randf p (List.finRange NUM_ASTEROIDS)
      (advance_projectile F context p world)
  else
    world

def update_asteroids (F : FloatArith) (context : SDLContext) (randf : Nat → ℚ)
    (world : World) : World :=
  (List.finRange NUM_ASTEROIDS).foldl
    (fun world i => update_asteroid F context randf i world) world

def update_projectiles (F : FloatArith) (context : SDLContext) (randf : Nat → ℚ)
    (world : World) : World :=
  (List.finRange PROJECTILE_POOL_SIZE).foldl
    (fun world p => update_projectile F context randf p world) world

def update (F : FloatArith) (context : SDLContext) (randf : Nat → ℚ) (world : World) : World :=
  update_projectiles F context randf
    (update_asteroids F context randf (update_player F context world))

/-- The centre of a square entity in exact arithmetic: `position + size / 2` on each axis. -/
def Entity.center (e : Entity) : SDL_FPoint :=
  { x := e.position.x + e.size / 2, y := e.position.y + e.size / 2 }

/-- How many projectile slots are active. -/
def active_projectile_count (game_state : GameState) : Nat :=
  (List.finRange PROJECTILE_POOL_SIZE).countP (fun i => (game_state.projectiles i).active)

/-- Whether an event is a scoring collision. -/
def Event.is_collision : Event → Bool
  | Event.Collision _ _ => true
  | _ => false

/-- Whether an event is a scoring collision on asteroid slot `k`. -/
def Event.hits (k : Fin NUM_ASTEROIDS) : Event → Bool
  | Event.Collision _ i => decide (i = k)
  | _ => false

/-- How many scoring collisions in a trace have asteroid slot `k` as their target. -/
def hit_count (k : Fin NUM_ASTEROIDS) (trace : List Event) : Nat :=
  trace.countP (Event.hits k)

/-- Whether an event is a scoring collision of projectile slot `p`. -/
def Event.scored_by (p : Fin PROJECTILE_POOL_SIZE) : Event → Bool
  | Event.Collision q _ => decide (q = p)
  | _ => false

/-- How many scoring collisions in a trace belong to projectile slot `p`. -/
def score_count (p : Fin PROJECTILE_POOL_SIZE) (trace : List Event) : Nat :=
  trace.countP (Event.scored_by p)

/-- What a game reset establishes and the rest of the frame keeps: score 0, no projectile in
flight, the player at its start position. -/
def after_reset (F : FloatArith) (context : SDLContext) (game_state : GameState) : Prop :=
  game_state.player_score = 0 ∧
  (∀ j, (game_state.projectiles j).active = false) ∧
  game_state.player.position =
    { x := F.sub (F.div context.window_w 2) (F.div game_state.player.size 2),
      y := F.sub context.window_h (F.mul game_state.player.size 2) }

/-- An asteroid of positive size sitting just above the window, at `-size`. -/
def Entity.at_top (e : Entity) : Prop :=
  0 < e.size ∧ e.position.y = -e.size

/-- An asteroid of positive size at `-size`, or one downward move of this frame below it. -/
def Entity.near_top (F : FloatArith) (context : SDLContext) (e : Entity) : Prop :=
  0 < e.size ∧
  (e.position.y = -e.size ∨ e.position.y = F.add (-e.size) (F.mul context.delta e.velocity))

/-- The position of an asteroid after its downward move in `update`. -/
def Entity.moved_position (F : FloatArith) (context : SDLContext) (e : Entity) : SDL_FPoint :=
  { x := e.position.x, y := F.add e.position.y (F.mul context.delta e.velocity) }

/-! ## Concrete inputs -/

/-- The player as `init` leaves it in a 600 x 800 window. -/
def ex_entity : Entity :=
  { position := ⟨268, 672⟩, size := 64, velocity := 320, rect := ⟨268, 672, 64, 64⟩,
    texture_atlas := 1, texture_rect := ⟨512, 0, 128, 128⟩ }

def ex_context : SDLContext :=
  { window_w := 600, window_h := 800, delta := 1 / 60, btn_pressed_up := false,
    btn_pressed_down := false, btn_pressed_left := false, btn_pressed_right := false,
    btn_pressed_fire := false }

/-- An asteroid far from the player and from every projectile used below. -/
def ex_asteroid : Entity :=
  { ex_entity with position := ⟨500, 100⟩, velocity := 128, rect := ⟨500, 100, 64, 64⟩,
                   texture_rect := ⟨0, 512, 128, 128⟩ }

/-- A projectile slot as `init` leaves it. -/
def ex_idle_projectile : Projectile :=
  { position := ⟨0, 0⟩, size := 0, velocity := 0, rect := ⟨0, 0, 0, 0⟩, active := false }

/-- A world whose 16 projectile slots are all in flight. -/
def ex_full_world : World :=
  { game_state :=
      { player := ex_entity
        asteroids := fun _ => ex_asteroid
        projectiles := fun _ =>
          { position := ⟨292, 400⟩, size := 16, velocity := -640, rect := ⟨292, 400, 16, 16⟩,
            active := true }
        texture_atlas := 1
        player_score := 3 }
    rand_calls := 0
    trace := [] }

/-- An asteroid whose size was never set. -/
def ex_unsized_asteroid : Entity := { ex_entity with size := 0 }

/-- A window narrower than two asteroid widths. -/
def ex_narrow_context : SDLContext := { ex_context with window_w := 100 }

/-- The player with its centre on the left edge, and the left key held. -/
def ex_edge_world : World :=
  { ex_full_world with game_state := { ex_full_world.game_state with
      player := { ex_entity with position := ⟨-32, 672⟩ } } }

def ex_left_context : SDLContext := { ex_context with btn_pressed_left := true }

/-- Every draw of the random source is one half. -/
def ex_randf : Nat → ℚ := fun _ => 1 / 2

/-- Two projectiles in flight: slot 0 just below asteroid 0, slot 1 where asteroid 0 respawns
when the draw is one half. -/
def ex_double_hit_world : World :=
  { game_state :=
      { player := ex_entity
        asteroids := fun i =>
          if i = 0 then { ex_asteroid with position := ⟨100, 300⟩, rect := ⟨100, 300, 64, 64⟩ }
          else ex_asteroid
        projectiles := fun p =>
          if p = 0 then
            { position := ⟨124, 336⟩, size := 16, velocity := -640, rect := ⟨124, 336, 16, 16⟩,
              active := true }
          else if p = 1 then
            { position := ⟨324, 2 / 3⟩, size := 16, velocity := -640,
              rect := ⟨324, 2 / 3, 16, 16⟩, active := true }
          else ex_idle_projectile
        texture_atlas := 1
        player_score := 0 }
    rand_calls := 0
    trace := [] }

/-- Asteroid 0 is on top of the player; no projectile is in flight. -/
def ex_crash_world : World :=
  { game_state :=
      { player := ex_entity
        asteroids := fun i =>
          if i = 0 then { ex_asteroid with position := ⟨268, 670⟩, rect := ⟨268, 670, 64, 64⟩ }
          else ex_asteroid
        projectiles := fun _ => ex_idle_projectile
        texture_atlas := 1
        player_score := 5 }
    rand_calls := 0
    trace := [] }

/-- Asteroid 0 ends its move 30 to the left of and 40 above the player: squared distance
2500. -/
def ex_fifty_world : World :=
  { ex_crash_world with game_state := { ex_crash_world.game_state with
      asteroids := fun i =>
        if i = 0 then
          { ex_asteroid with position := ⟨238, 632 - 32 / 15⟩, rect := ⟨238, 632 - 32 / 15, 64, 64⟩ }
        else ex_asteroid } }

/-- Asteroid 0 ends its move 48 to the left of and 64 above the player: squared distance
6400. -/
def ex_warning_world : World :=
  { ex_crash_world with game_state := { ex_crash_world.game_state with
      asteroids := fun i =>
        if i = 0 then
          { ex_asteroid with position := ⟨220, 608 - 32 / 15⟩, rect := ⟨220, 608 - 32 / 15, 64, 64⟩ }
        else ex_asteroid } }

/-- One projectile in flight, in slot 0, about to leave the top of the window. -/
def ex_leaving_world : World :=
  { ex_crash_world with game_state := { ex_crash_world.game_state with
      asteroids := fun _ => ex_asteroid
      projectiles := fun p =>
        if p = 0 then
          { position := ⟨292, -8⟩, size := 16, velocity := -640, rect := ⟨292, -8, 16, 16⟩,
            active := true }
        else ex_idle_projectile } }

/-- The player at the top of the window, asteroid 0 as a respawn with both draws one half
leaves it, and no projectile in flight. -/
def ex_top_player_world : World :=
  { ex_crash_world with game_state := { ex_crash_world.game_state with
      player_score := 0
      player := { ex_entity with position := ⟨275, 10⟩, rect := ⟨275, 10, 64, 64⟩ }
      asteroids := fun i =>
        if i = 0 then respawn_asteroid FloatArith.exact ex_context ex_asteroid (1 / 2) (1 / 2)
        else ex_asteroid } }

/-- The world `ex_top_player_world` after the fire key: what `spawn_projectile` leaves. -/
def ex_top_shot_world : World :=
  (spawn_projectile FloatArith.exact ex_context ex_top_player_world).2

/-- The player in mid-window with asteroid 3 almost on top of it, projectiles 0 and 5 in
flight away from every asteroid, and a score of 7. -/
def ex_busy_crash_world : World :=
  { game_state :=
      { player := { ex_entity with position := ⟨100, 400⟩, rect := ⟨100, 400, 64, 64⟩ }
        asteroids := fun i =>
          if i = 3 then { ex_asteroid with position := ⟨110, 390⟩, rect := ⟨110, 390, 64, 64⟩ }
          else ex_asteroid
        projectiles := fun p =>
          if p = 0 ∨ p = 5 then
            { position := ⟨292, 500⟩, size := 16, velocity := -640, rect := ⟨292, 500, 16, 16⟩,
              active := true }
          else ex_idle_projectile
        texture_atlas := 1
        player_score := 7 }
    rand_calls := 0
    trace := [] }

/-- The world of `ex_double_hit_world` with the score at `INT_MAX`. -/
def ex_max_score_world : World :=
  { ex_double_hit_world with game_state := { ex_double_hit_world.game_state with
      player_score := 2147483647 } }

/-- Projectile 0 in flight under two overlapping asteroids, slots 2 and 5; the score is 41. -/
def ex_tie_world : World :=
  { ex_double_hit_world with game_state := { ex_double_hit_world.game_state with
      player_score := 41
      asteroids := fun i =>
        if i = 2 then { ex_asteroid with position := ⟨100, 300⟩, rect := ⟨100, 300, 64, 64⟩ }
        else if i = 5 then
          { ex_asteroid with position := ⟨110, 305⟩, rect := ⟨110, 305, 64, 64⟩ }
        else ex_asteroid
      projectiles := fun p =>
        if p = 0 then
          { position := ⟨124, 336⟩, size := 16, velocity := -640, rect := ⟨124, 336, 16, 16⟩,
            active := true }
        else ex_idle_projectile } }

end E01

/-!
# E00_introduction: frame pacing

A shallow embedding of the frame-pacing block of `main` in
`src/exercises/E00_introduction.cpp`.

* Times are integers: `SDL_Time` is a signed 64-bit count of nanoseconds, and the
  arithmetic on it is written out with its wrap-around (`to_sint64`).
* `SDL_DelayNS` and `SDL_DelayPrecise` take a `Uint64`, `SDL_Delay` a `Uint32`; passing a
  signed value converts it modulo `2 ^ 64`, respectively `2 ^ 32`.
* What the block does is the list of waits it asks for; the loop that samples the clock
  until the frame budget has elapsed is one entry, `PacerCall.BusyWait`.
-/

namespace E00

/-- The declaration `int target_framerate_ns = 1000000000 / 60`. -/
def target_framerate_ns : Int := Int.tdiv 1000000000 60

/-- The value of a signed 64-bit computation whose exact result is `x`. -/
def to_sint64 (x : Int) : Int := (x + 2 ^ 63) % 2 ^ 64 - 2 ^ 63

/-- Conversion of a signed value to `Uint64`. -/
def to_uint64 (x : Int) : Nat := (x % 2 ^ 64).toNat

/-- Conversion of a signed value to `Uint32`. -/
def to_uint32 (x : Int) : Nat := (x % 2 ^ 32).toNat

/-- The waits the frame pacer can ask for, with the argument the primitive receives. -/
inductive PacerCall where
  | BusyWait (target_ns : Int)
  | Delay (ms : Nat)
  | DelayNS (ns : Nat)
  | DelayPrecise (ns : Nat)
deriving DecidableEq

/-- The frame-pacing block of `main`: the `if` on the elapsed work time and the `switch`
on `delay_type`. -/
def frame_pacing (delay_type : Int) (time_elapsed_work : Int) : List PacerCall :=
  if target_framerate_ns > time_elapsed_work then
    if delay_type = 0 then
      [PacerCall.BusyWait target_framerate_ns]
    else if delay_type = 1 then
      [PacerCall.Delay (to_uint32
        (Int.tdiv (to_sint64 (target_framerate_ns - time_elapsed_work)) 1000000))]
    else if delay_type = 2 then
      [PacerCall.DelayNS (to_uint64 (to_sint64 (target_framerate_ns - time_elapsed_work)))]
    else if delay_type = 3 then
      [PacerCall.DelayPrecise (to_uint64 (to_sint64 (target_framerate_ns - time_elapsed_work)))]
    else if delay_type = 4 then
      [PacerCall.DelayNS (to_uint64
        (to_sint64 (to_sint64 (target_framerate_ns - time_elapsed_work) - 1000000))),
       PacerCall.BusyWait target_framerate_ns]
    else
      []
  else
    []

/-- The argument `SDL_DelayNS` receives in the hybrid strategy (`delay_type` 4). -/
def hybrid_sleep_ns (time_elapsed_work : Int) : Nat :=
  to_uint64 (to_sint64 (to_sint64 (target_framerate_ns - time_elapsed_work) - 1000000))

end E00

namespace E01

/-! ## Properties -/

theorem exact_add (a b : ℚ) : FloatArith.exact.add a b = a + b := rfl

theorem exact_sub (a b : ℚ) : FloatArith.exact.sub a b = a - b := rfl

theorem exact_mul (a b : ℚ) : FloatArith.exact.mul a b = a * b := rfl

theorem exact_div (a b : ℚ) : FloatArith.exact.div a b = a / b := rfl

theorem spawn_projectile_scan_all_active {F : FloatArith} (game_state : GameState)
    (slots : List (Fin PROJECTILE_POOL_SIZE))
    (h : ∀ i ∈ slots, (game_state.projectiles i).active = true) :
    spawn_projectile_scan F game_state slots = none := by
  induction slots with
  | nil => rfl
  | cons i slots ih =>
    have hi : (game_state.projectiles i).active = true := h i (List.mem_cons_self _ _)
    simp only [spawn_projectile_scan, hi, Bool.not_true, Bool.false_eq_true, if_false]
    exact ih (fun j hj => h j (List.mem_cons_of_mem _ hj))

theorem active_projectile_count_full (game_state : GameState)
    (h : ∀ i, (game_state.projectiles i).active = true) :
    active_projectile_count game_state = 16 := by
  unfold active_projectile_count
  rw [List.countP_eq_length.mpr (fun i _ => h i)]
  simp

/-- C1: when all 16 projectile slots are active, `spawn_projectile` returns NULL and the
game state is unchanged: every slot is as before, 16 slots are still active, and player,
asteroids and score are untouched. -/
theorem spawn_projectile_pool_exhausted (F : FloatArith) (context : SDLContext) (world : World)
    (hfull : ∀ i, (world.game_state.projectiles i).active = true) :
    (spawn_projectile F context world).1 = none ∧
    (spawn_projectile F context world).2.game_state = world.game_state ∧
    (∀ i, (spawn_projectile F context world).2.game_state.projectiles i =
      world.game_state.projectiles i) ∧
    active_projectile_count (spawn_projectile F context world).2.game_state = 16 ∧
    (spawn_projectile F context world).2.game_state.player = world.game_state.player ∧
    (spawn_projectile F context world).2.game_state.asteroids = world.game_state.asteroids ∧
    (spawn_projectile F context world).2.game_state.player_score =
      world.game_state.player_score := by
  have hscan := @spawn_projectile_scan_all_active F world.game_state
    (List.finRange PROJECTILE_POOL_SIZE) (fun i _ => hfull i)
  have hgs : (spawn_projectile F context world).2.game_state = world.game_state := by
    simp only [spawn_projectile, hscan]
  refine ⟨?_, hgs, ?_, ?_, ?_, ?_, ?_⟩
  · simp only [spawn_projectile, hscan]
  · intro i; rw [hgs]
  · rw [hgs]; exact active_projectile_count_full _ hfull
  · rw [hgs]
  · rw [hgs]
  · rw [hgs]

theorem spawn_projectile_pool_exhausted_witness :
    (∀ i, (ex_full_world.game_state.projectiles i).active = true) ∧
    (spawn_projectile FloatArith.exact ex_context ex_full_world).1 = none ∧
    active_projectile_count (spawn_projectile FloatArith.exact ex_context ex_full_world).2.game_state = 16 :=
  have h := spawn_projectile_pool_exhausted FloatArith.exact ex_context ex_full_world
    (fun _ => rfl)
  ⟨fun _ => rfl, h.1, h.2.2.2.1⟩

theorem respawn_asteroid_size {F : FloatArith} (context : SDLContext) (asteroid : Entity)
    (r1 r2 : ℚ) :
    (respawn_asteroid F context asteroid r1 r2).size =
      if asteroid.size ≤ 0 then 64 else asteroid.size := by
  unfold respawn_asteroid
  split_ifs <;> rfl

theorem respawn_asteroid_size_pos {F : FloatArith} (context : SDLContext) (asteroid : Entity)
    (r1 r2 : ℚ) :
    0 < (respawn_asteroid F context asteroid r1 r2).size := by
  rw [respawn_asteroid_size]
  split_ifs with h
  · norm_num
  · exact lt_of_not_ge h

theorem respawn_asteroid_position_y {F : FloatArith} (context : SDLContext) (asteroid : Entity)
    (r1 r2 : ℚ) :
    (respawn_asteroid F context asteroid r1 r2).position.y =
      -(respawn_asteroid F context asteroid r1 r2).size := by
  unfold respawn_asteroid
  split_ifs <;> rfl

theorem respawn_asteroid_position_x {F : FloatArith} (context : SDLContext) (asteroid : Entity)
    (r1 r2 : ℚ) :
    (respawn_asteroid F context asteroid r1 r2).position.x =
      F.add (respawn_asteroid F context asteroid r1 r2).size
        (F.mul r1 (F.sub context.window_w
          (F.mul (respawn_asteroid F context asteroid r1 r2).size 2))) := by
  unfold respawn_asteroid
  split_ifs <;> rfl

theorem respawn_asteroid_velocity {F : FloatArith} (context : SDLContext) (asteroid : Entity)
    (r1 r2 : ℚ) :
    (respawn_asteroid F context asteroid r1 r2).velocity =
      F.add (F.mul (respawn_asteroid F context asteroid r1 r2).size 2)
        (F.mul (F.mul r2 (respawn_asteroid F context asteroid r1 r2).size) 4) := by
  unfold respawn_asteroid
  split_ifs <;> rfl

theorem respawn_asteroid_texture {F : FloatArith} (context : SDLContext) (asteroid : Entity)
    (r1 r2 : ℚ) :
    (respawn_asteroid F context asteroid r1 r2).texture_atlas = asteroid.texture_atlas ∧
    (respawn_asteroid F context asteroid r1 r2).texture_rect = asteroid.texture_rect := by
  unfold respawn_asteroid
  split_ifs <;> exact ⟨rfl, rfl⟩

/-- C5 (as stated, refuted): an asteroid whose size field is 0 comes out of
`respawn_asteroid` with size 64. -/
theorem respawn_asteroid_changes_unset_size :
    ex_unsized_asteroid.size = 0 ∧
    (respawn_asteroid FloatArith.exact ex_context ex_unsized_asteroid 0 0).size = 64 ∧
    (respawn_asteroid FloatArith.exact ex_context ex_unsized_asteroid 0 0).size ≠ ex_unsized_asteroid.size := by
  decide!

/-- C5 (amended): for an asteroid of positive size, `respawn_asteroid` leaves the size and
the texture fields unchanged and the rectangle is the one derived from the new position and
that size; an asteroid of size `≤ 0` gets the default size 64. -/
theorem respawn_asteroid_keeps_positive_size (F : FloatArith) (context : SDLContext)
    (asteroid : Entity) (r1 r2 : ℚ) (hsize : 0 < asteroid.size) :
    (respawn_asteroid F context asteroid r1 r2).size = asteroid.size ∧
    (respawn_asteroid F context asteroid r1 r2).texture_atlas = asteroid.texture_atlas ∧
    (respawn_asteroid F context asteroid r1 r2).texture_rect = asteroid.texture_rect ∧
    (respawn_asteroid F context asteroid r1 r2).rect =
      { x := (respawn_asteroid F context asteroid r1 r2).position.x,
        y := (respawn_asteroid F context asteroid r1 r2).position.y,
        w := asteroid.size, h := asteroid.size } := by
  have hn : ¬ asteroid.size ≤ 0 := not_le.mpr hsize
  refine ⟨?_, (respawn_asteroid_texture _ _ _ _).1, (respawn_asteroid_texture _ _ _ _).2, ?_⟩
  · rw [respawn_asteroid_size, if_neg hn]
  · unfold respawn_asteroid
    rw [if_neg hn]

theorem respawn_asteroid_keeps_positive_size_witness :
    0 < ex_entity.size ∧ (respawn_asteroid FloatArith.exact ex_context ex_entity (1 / 2) (1 / 4)).size = 64 :=
  ⟨by decide!, (respawn_asteroid_keeps_positive_size FloatArith.exact ex_context ex_entity (1 / 2) (1 / 4)
    (by decide!)).1⟩

/-- C6 (as stated, refuted): in a window 100 wide an asteroid of size 64 respawns, with
draw 0, at horizontal position 64, which is not within `[64, 100 - 64]`. -/
theorem respawn_asteroid_outside_narrow_window :
    (0 : ℚ) ≤ 0 ∧ (0 : ℚ) < 1 ∧
    (respawn_asteroid FloatArith.exact ex_narrow_context ex_entity 0 0).size = 64 ∧
    (respawn_asteroid FloatArith.exact ex_narrow_context ex_entity 0 0).position.x = 64 ∧
    ¬ ((respawn_asteroid FloatArith.exact ex_narrow_context ex_entity 0 0).position.x ≤
        ex_narrow_context.window_w - (respawn_asteroid FloatArith.exact ex_narrow_context ex_entity 0 0).size) := by
  decide!

/-- C6 (amended): in exact arithmetic, when the window is at least two asteroid sizes wide, after
`respawn_asteroid` with a draw in `[0,1)` the vertical position is `-size` and the
horizontal position lies in `[size, window_w - size]` (size taken after the call). -/
theorem respawn_asteroid_position_range (context : SDLContext) (asteroid : Entity)
    (r1 r2 : ℚ) (hr0 : 0 ≤ r1) (hr1 : r1 < 1)
    (hwide : (respawn_asteroid FloatArith.exact context asteroid r1 r2).size * 2 ≤ context.window_w) :
    (respawn_asteroid FloatArith.exact context asteroid r1 r2).position.y =
      -(respawn_asteroid FloatArith.exact context asteroid r1 r2).size ∧
    (respawn_asteroid FloatArith.exact context asteroid r1 r2).size ≤
      (respawn_asteroid FloatArith.exact context asteroid r1 r2).position.x ∧
    (respawn_asteroid FloatArith.exact context asteroid r1 r2).position.x ≤
      context.window_w - (respawn_asteroid FloatArith.exact context asteroid r1 r2).size := by
  refine ⟨respawn_asteroid_position_y _ _ _ _, ?_, ?_⟩
  · rw [respawn_asteroid_position_x, exact_add, exact_mul, exact_sub, exact_mul]
    have := mul_nonneg hr0 (sub_nonneg.mpr hwide)
    linarith
  · rw [respawn_asteroid_position_x, exact_add, exact_mul, exact_sub, exact_mul]
    have h1 : r1 * (context.window_w - (respawn_asteroid FloatArith.exact context asteroid r1 r2).size * 2) ≤
        1 * (context.window_w - (respawn_asteroid FloatArith.exact context asteroid r1 r2).size * 2) :=
      mul_le_mul_of_nonneg_right hr1.le (sub_nonneg.mpr hwide)
    linarith

theorem respawn_asteroid_position_range_witness :
    (0 : ℚ) ≤ 1 / 2 ∧ (1 / 2 : ℚ) < 1 ∧
    (respawn_asteroid FloatArith.exact ex_context ex_entity (1 / 2) (1 / 4)).size * 2 ≤ ex_context.window_w ∧
    (respawn_asteroid FloatArith.exact ex_context ex_entity (1 / 2) (1 / 4)).position.y =
      -(respawn_asteroid FloatArith.exact ex_context ex_entity (1 / 2) (1 / 4)).size ∧
    (respawn_asteroid FloatArith.exact ex_context ex_entity (1 / 2) (1 / 4)).size ≤
      (respawn_asteroid FloatArith.exact ex_context ex_entity (1 / 2) (1 / 4)).position.x ∧
    (respawn_asteroid FloatArith.exact ex_context ex_entity (1 / 2) (1 / 4)).position.x ≤
      ex_context.window_w - (respawn_asteroid FloatArith.exact ex_context ex_entity (1 / 2) (1 / 4)).size :=
  ⟨by decide!, by decide!, by decide!,
    respawn_asteroid_position_range ex_context ex_entity (1 / 2) (1 / 4)
      (by decide!) (by decide!) (by decide!)⟩

theorem update_player_center_x (context : SDLContext) (world : World) :
    (update_player FloatArith.exact context world).game_state.player.center.x =
      (let cx := (player_movement FloatArith.exact context world.game_state.player).center.x
       let cx := if cx < 0 then cx + context.window_w else cx
       if cx > context.window_w then cx - context.window_w else cx) := by
  have hs : (player_movement FloatArith.exact context world.game_state.player).size =
      world.game_state.player.size := by
    unfold player_movement; split_ifs <;> rfl
  simp only [update_player, Entity.center, hs, FloatArith.exact]
  ring

theorem update_player_center_y (context : SDLContext) (world : World) :
    (update_player FloatArith.exact context world).game_state.player.center.y =
      (let cy := (player_movement FloatArith.exact context world.game_state.player).center.y
       let cy := if cy < 0 then cy + context.window_h else cy
       if cy > context.window_h then cy - context.window_h else cy) := by
  have hs : (player_movement FloatArith.exact context world.game_state.player).size =
      world.game_state.player.size := by
    unfold player_movement; split_ifs <;> rfl
  simp only [update_player, Entity.center, hs, FloatArith.exact]
  ring

theorem player_movement_center_x (context : SDLContext) (e : Entity) :
    (player_movement FloatArith.exact context e).center.x =
      e.center.x - (if context.btn_pressed_left then context.delta * e.velocity else 0)
        + (if context.btn_pressed_right then context.delta * e.velocity else 0) := by
  unfold player_movement Entity.center
  simp only [FloatArith.exact]
  split_ifs <;> simp <;> ring

theorem player_movement_center_y (context : SDLContext) (e : Entity) :
    (player_movement FloatArith.exact context e).center.y =
      e.center.y - (if context.btn_pressed_up then context.delta * e.velocity else 0)
        + (if context.btn_pressed_down then context.delta * e.velocity else 0) := by
  unfold player_movement Entity.center
  simp only [FloatArith.exact]
  split_ifs <;> simp <;> ring

/-- One axis of the wrap: a coordinate in `[0, len]` displaced by less than `len` and then
corrected once is back in `[0, len]`, shifted by `0` or `± len`. -/
theorem wrap_once (c len step : ℚ) (hc0 : 0 ≤ c) (hc1 : c ≤ len)
    (hs1 : step < len) (m : ℚ) (hm0 : c - step ≤ m) (hm1 : m ≤ c + step) :
    (0 ≤ (let cx := m
          let cx := if cx < 0 then cx + len else cx
          if cx > len then cx - len else cx)) ∧
    ((let cx := m
      let cx := if cx < 0 then cx + len else cx
      if cx > len then cx - len else cx) ≤ len) ∧
    ((let cx := m
      let cx := if cx < 0 then cx + len else cx
      if cx > len then cx - len else cx) = m ∨
     (let cx := m
      let cx := if cx < 0 then cx + len else cx
      if cx > len then cx - len else cx) = m + len ∨
     (let cx := m
      let cx := if cx < 0 then cx + len else cx
      if cx > len then cx - len else cx) = m - len) := by
  simp only
  split_ifs with h1 h2 h3
  · exfalso; linarith
  · refine ⟨by linarith, by linarith, Or.inr (Or.inl rfl)⟩
  · refine ⟨by linarith, by linarith, Or.inr (Or.inr rfl)⟩
  · refine ⟨by linarith, by linarith, Or.inl rfl⟩

/-- C10: in exact arithmetic, with a positive window, `delta ≥ 0`, the player's centre inside
`[0, window_w] × [0, window_h]` and `0 ≤ velocity * delta < min window_w window_h`, the
movement-and-wrap step of `update` leaves the centre inside `[0, window_w] × [0, window_h]`,
and on each axis the new centre is the moved centre shifted by `0` or by plus or minus one
window dimension, for every combination of the four direction flags. -/
theorem update_player_center_in_window (context : SDLContext) (world : World)
    (hw : 0 < context.window_w) (hh : 0 < context.window_h) (hd : 0 ≤ context.delta)
    (hcx0 : 0 ≤ world.game_state.player.center.x)
    (hcx1 : world.game_state.player.center.x ≤ context.window_w)
    (hcy0 : 0 ≤ world.game_state.player.center.y)
    (hcy1 : world.game_state.player.center.y ≤ context.window_h)
    (hv0 : 0 ≤ world.game_state.player.velocity * context.delta)
    (hv1 : world.game_state.player.velocity * context.delta <
      min context.window_w context.window_h) :
    (0 ≤ (update_player FloatArith.exact context world).game_state.player.center.x ∧
      (update_player FloatArith.exact context world).game_state.player.center.x ≤ context.window_w) ∧
    (0 ≤ (update_player FloatArith.exact context world).game_state.player.center.y ∧
      (update_player FloatArith.exact context world).game_state.player.center.y ≤ context.window_h) ∧
    ((update_player FloatArith.exact context world).game_state.player.center.x =
        (player_movement FloatArith.exact context world.game_state.player).center.x ∨
      (update_player FloatArith.exact context world).game_state.player.center.x =
        (player_movement FloatArith.exact context world.game_state.player).center.x + context.window_w ∨
      (update_player FloatArith.exact context world).game_state.player.center.x =
        (player_movement FloatArith.exact context world.game_state.player).center.x - context.window_w) ∧
    ((update_player FloatArith.exact context world).game_state.player.center.y =
        (player_movement FloatArith.exact context world.game_state.player).center.y ∨
      (update_player FloatArith.exact context world).game_state.player.center.y =
        (player_movement FloatArith.exact context world.game_state.player).center.y + context.window_h ∨
      (update_player FloatArith.exact context world).game_state.player.center.y =
        (player_movement FloatArith.exact context world.game_state.player).center.y - context.window_h) := by
  have hstep : context.delta * world.game_state.player.velocity =
      world.game_state.player.velocity * context.delta := mul_comm _ _
  have hxw := (lt_min_iff.mp hv1).1
  have hyw := (lt_min_iff.mp hv1).2
  have hmx := player_movement_center_x context world.game_state.player
  have hmy := player_movement_center_y context world.game_state.player
  have hx := wrap_once world.game_state.player.center.x context.window_w
    (world.game_state.player.velocity * context.delta) hcx0 hcx1 hxw
    (player_movement FloatArith.exact context world.game_state.player).center.x
    (by rw [hmx, hstep]; split_ifs <;> linarith)
    (by rw [hmx, hstep]; split_ifs <;> linarith)
  have hy := wrap_once world.game_state.player.center.y context.window_h
    (world.game_state.player.velocity * context.delta) hcy0 hcy1 hyw
    (player_movement FloatArith.exact context world.game_state.player).center.y
    (by rw [hmy, hstep]; split_ifs <;> linarith)
    (by rw [hmy, hstep]; split_ifs <;> linarith)
  rw [update_player_center_x, update_player_center_y]
  exact ⟨⟨hx.1, hx.2.1⟩, ⟨hy.1, hy.2.1⟩, hx.2.2, hy.2.2⟩

theorem respawn_asteroid_at_asteroids {F : FloatArith} (context : SDLContext) (randf : Nat → ℚ)
    (i : Fin NUM_ASTEROIDS) (world : World) :
    (respawn_asteroid_at F context randf i world).game_state.asteroids =
      Function.update world.game_state.asteroids i
        (respawn_asteroid F context (world.game_state.asteroids i)
          (randf world.rand_calls) (randf (world.rand_calls + 1))) := rfl

theorem collides_iff (asteroid : Entity) (projectile : Projectile) :
    collides FloatArith.exact asteroid projectile = true ↔
      distance_between_sq FloatArith.exact asteroid.center
        { x := projectile.position.x + projectile.size / 2,
          y := projectile.position.y + projectile.size / 2 } <
        (asteroid.size / 2 + projectile.size / 2) ^ 2 := by
  simp [collides, distance_between_sq, FloatArith.exact, Entity.center, sq]

/-- The inner loop over an increasing list of slots: either no listed asteroid collides
and nothing happens, or the collision branch runs for the least colliding slot. -/
theorem check_collisions_spec {F : FloatArith} (context : SDLContext) (randf : Nat → ℚ)
    (p : Fin PROJECTILE_POOL_SIZE) (slots : List (Fin NUM_ASTEROIDS)) (world : World)
    (hsorted : slots.Pairwise (· < ·)) :
    ((∀ k ∈ slots,
        collides F (world.game_state.asteroids k) (world.game_state.projectiles p) = false) ∧
      check_collisions F context randf p slots world = world) ∨
    (∃ m ∈ slots,
      collides F (world.game_state.asteroids m) (world.game_state.projectiles p) = true ∧
      (∀ k ∈ slots,
        collides F (world.game_state.asteroids k) (world.game_state.projectiles p) = true →
          m ≤ k) ∧
      check_collisions F context randf p slots world = collision_hit F context randf p m world) := by
  induction slots with
  | nil => exact Or.inl ⟨fun k hk => absurd hk (List.not_mem_nil k), rfl⟩
  | cons i slots ih =>
    rw [List.pairwise_cons] at hsorted
    by_cases hc : collides F (world.game_state.asteroids i) (world.game_state.projectiles p) = true
    · refine Or.inr ⟨i, List.mem_cons_self _ _, hc, ?_, ?_⟩
      · intro k hk _
        rcases List.mem_cons.mp hk with rfl | hk
        · exact le_refl _
        · exact (hsorted.1 k hk).le
      · simp only [check_collisions, hc, if_true]
    · have hstep : check_collisions F context randf p (i :: slots) world =
          check_collisions F context randf p slots world := by
        simp only [check_collisions, hc, if_false]
        rfl
      rcases ih hsorted.2 with ⟨hnone, heq⟩ | ⟨m, hm, hcm, hmin, heq⟩
      · refine Or.inl ⟨?_, hstep.trans heq⟩
        intro k hk
        rcases List.mem_cons.mp hk with rfl | hk
        · simpa using hc
        · exact hnone k hk
      · refine Or.inr ⟨m, List.mem_cons_of_mem _ hm, hcm, ?_, hstep.trans heq⟩
        intro k hk hck
        rcases List.mem_cons.mp hk with rfl | hk
        · exact absurd hck hc
        · exact hmin k hk hck


theorem advance_projectile_position {F : FloatArith} (context : SDLContext)
    (p : Fin PROJECTILE_POOL_SIZE)
    (world : World) :
    ((advance_projectile F context p world).game_state.projectiles p).position =
      { x := (world.game_state.projectiles p).position.x,
        y := F.add (world.game_state.projectiles p).position.y
          (F.mul context.delta (world.game_state.projectiles p).velocity) } ∧
    ((advance_projectile F context p world).game_state.projectiles p).size =
      (world.game_state.projectiles p).size := by
  simp only [advance_projectile, Function.update_same]
  split_ifs <;> exact ⟨rfl, rfl⟩

theorem advance_projectile_frame {F : FloatArith} (context : SDLContext)
    (p : Fin PROJECTILE_POOL_SIZE)
    (world : World) :
    (advance_projectile F context p world).game_state.asteroids = world.game_state.asteroids ∧
    (advance_projectile F context p world).game_state.player_score =
      world.game_state.player_score ∧
    (advance_projectile F context p world).game_state.player = world.game_state.player ∧
    (advance_projectile F context p world).rand_calls = world.rand_calls ∧
    (∀ q, q ≠ p → (advance_projectile F context p world).game_state.projectiles q =
      world.game_state.projectiles q) := by
  refine ⟨rfl, rfl, rfl, rfl, ?_⟩
  intro q hq
  simp only [advance_projectile, Function.update_noteq hq]

theorem wrap_int_eq (x : Int) (h0 : INT_MIN ≤ x) (h1 : x ≤ INT_MAX) : wrap_int x = x := by
  unfold wrap_int
  unfold INT_MIN at h0
  unfold INT_MAX at h1
  omega

/-- C3 (as stated, refuted): with the score at `INT_MAX = 2147483647`, an active projectile
whose hit set is non-empty (asteroid 0 is in it) leaves the score at
`INT_MIN = -2147483648`: `player_score += 1` wraps, the score does not grow by 1. -/
theorem update_projectile_score_wraps :
    (ex_max_score_world.game_state.projectiles 0).active = true ∧
    distance_between_sq FloatArith.exact (ex_max_score_world.game_state.asteroids 0).center
        { x := (ex_max_score_world.game_state.projectiles 0).position.x +
            (ex_max_score_world.game_state.projectiles 0).size / 2,
          y := (ex_max_score_world.game_state.projectiles 0).position.y +
            ex_context.delta * (ex_max_score_world.game_state.projectiles 0).velocity +
            (ex_max_score_world.game_state.projectiles 0).size / 2 } <
      ((ex_max_score_world.game_state.asteroids 0).size / 2 +
        (ex_max_score_world.game_state.projectiles 0).size / 2) ^ 2 ∧
    ex_max_score_world.game_state.player_score = 2147483647 ∧
    (update_projectile FloatArith.exact ex_context ex_randf 0
      ex_max_score_world).game_state.player_score = -2147483648 ∧
    (update_projectile FloatArith.exact ex_context ex_randf 0
      ex_max_score_world).game_state.player_score ≠
      ex_max_score_world.game_state.player_score + 1 := by
  decide!

/-- C3 (amended): processing an active projectile in `update`, in exact arithmetic and with
the score an `int` value below `INT_MAX`. With `H` the set of asteroid slots whose centre is
at squared distance `< (asteroid.size/2 + projectile.size/2)^2` from the centre of the moved
projectile: if `H` is non-empty, the score grows by exactly 1, the asteroid with the least
index in `H` is respawned, every other asteroid is unchanged and the projectile is left
inactive; if `H` is empty, score and asteroids are unchanged. -/
theorem update_projectile_first_hit (context : SDLContext) (randf : Nat → ℚ)
    (p : Fin PROJECTILE_POOL_SIZE) (world : World)
    (hactive : (world.game_state.projectiles p).active = true)
    (hscore0 : INT_MIN ≤ world.game_state.player_score)
    (hscore1 : world.game_state.player_score < INT_MAX) :
    let projectile := world.game_state.projectiles p
    let center : SDL_FPoint :=
      { x := projectile.position.x + projectile.size / 2,
        y := projectile.position.y + context.delta * projectile.velocity + projectile.size / 2 }
    let H : Fin NUM_ASTEROIDS → Prop := fun k =>
      distance_between_sq FloatArith.exact (world.game_state.asteroids k).center center <
        ((world.game_state.asteroids k).size / 2 + projectile.size / 2) ^ 2
    let world' := update_projectile FloatArith.exact context randf p world
    ((∃ k, H k) → ∃ m, H m ∧ (∀ k, H k → m ≤ k) ∧
      world'.game_state.player_score = world.game_state.player_score + 1 ∧
      world'.game_state.asteroids m =
        respawn_asteroid FloatArith.exact context (world.game_state.asteroids m)
          (randf world.rand_calls) (randf (world.rand_calls + 1)) ∧
      (∀ k, k ≠ m → world'.game_state.asteroids k = world.game_state.asteroids k) ∧
      (world'.game_state.projectiles p).active = false) ∧
    ((∀ k, ¬ H k) →
      world'.game_state.player_score = world.game_state.player_score ∧
      world'.game_state.asteroids = world.game_state.asteroids) := by
  intro projectile center H world'
  have hupd : world' = check_collisions FloatArith.exact context randf p
      (List.finRange NUM_ASTEROIDS) (advance_projectile FloatArith.exact context p world) := by
    simp only [world', update_projectile, hactive, if_true]
  obtain ⟨hpos, hsize⟩ := @advance_projectile_position FloatArith.exact context p world
  obtain ⟨hast, hscore, -, hrand, -⟩ :=
    @advance_projectile_frame FloatArith.exact context p world
  have hH : ∀ k, collides FloatArith.exact
      ((advance_projectile FloatArith.exact context p world).game_state.asteroids k)
      ((advance_projectile FloatArith.exact context p world).game_state.projectiles p) = true ↔
      H k := by
    intro k
    rw [collides_iff, hpos, hsize, hast]
    exact Iff.rfl
  rcases check_collisions_spec context randf p (List.finRange NUM_ASTEROIDS)
      (advance_projectile FloatArith.exact context p world) (List.pairwise_lt_finRange _) with
    ⟨hnone, heq⟩ | ⟨m, -, hcm, hmin, heq⟩
  · have hempty : ∀ k, ¬ H k := by
      intro k hk
      have := hnone k (List.mem_finRange k)
      rw [(hH k).mpr hk] at this
      exact Bool.noConfusion this
    refine ⟨fun ⟨k, hk⟩ => absurd hk (hempty k), fun _ => ?_⟩
    rw [hupd, heq]
    exact ⟨hscore, hast⟩
  · have hHm : H m := (hH m).mp hcm
    refine ⟨fun _ => ⟨m, hHm, ?_, ?_, ?_, ?_, ?_⟩, fun hempty => absurd hHm (hempty m)⟩
    · intro k hk
      exact hmin k (List.mem_finRange k) ((hH k).mpr hk)
    · rw [hupd, heq]
      show wrap_int ((advance_projectile FloatArith.exact context p world).game_state.player_score
        + 1) = _
      rw [hscore]
      apply wrap_int_eq
      · have := Int.add_le_add_right hscore0 1
        exact le_trans (by decide) this
      · exact Int.add_one_le_of_lt hscore1
    · rw [hupd, heq]
      show Function.update (advance_projectile FloatArith.exact context p world).game_state.asteroids
        m (respawn_asteroid FloatArith.exact context
          ((advance_projectile FloatArith.exact context p world).game_state.asteroids m)
          (randf (advance_projectile FloatArith.exact context p world).rand_calls)
          (randf ((advance_projectile FloatArith.exact context p world).rand_calls + 1))) m = _
      rw [Function.update_same, hast, hrand]
    · intro k hk
      rw [hupd, heq]
      show Function.update (advance_projectile FloatArith.exact context p world).game_state.asteroids
        m (respawn_asteroid FloatArith.exact context
          ((advance_projectile FloatArith.exact context p world).game_state.asteroids m)
          (randf (advance_projectile FloatArith.exact context p world).rand_calls)
          (randf ((advance_projectile FloatArith.exact context p world).rand_calls + 1))) k = _
      rw [Function.update_noteq hk, hast]
    · rw [hupd, heq]
      show (Function.update
        (advance_projectile FloatArith.exact context p world).game_state.projectiles p
        (deactivate_projectile
          ((advance_projectile FloatArith.exact context p world).game_state.projectiles p))
        p).active = false
      rw [Function.update_same]
      rfl

theorem update_projectile_first_hit_witness :
    (ex_tie_world.game_state.projectiles 0).active = true ∧
    (INT_MIN ≤ ex_tie_world.game_state.player_score ∧
      ex_tie_world.game_state.player_score < INT_MAX) ∧
    (∀ k : Fin NUM_ASTEROIDS,
      distance_between_sq FloatArith.exact (ex_tie_world.game_state.asteroids k).center
          { x := (ex_tie_world.game_state.projectiles 0).position.x +
              (ex_tie_world.game_state.projectiles 0).size / 2,
            y := (ex_tie_world.game_state.projectiles 0).position.y +
              ex_context.delta * (ex_tie_world.game_state.projectiles 0).velocity +
              (ex_tie_world.game_state.projectiles 0).size / 2 } <
        ((ex_tie_world.game_state.asteroids k).size / 2 +
          (ex_tie_world.game_state.projectiles 0).size / 2) ^ 2 ↔ k = 2 ∨ k = 5) ∧
    (update_projectile FloatArith.exact ex_context ex_randf 0
      ex_tie_world).game_state.player_score = ex_tie_world.game_state.player_score + 1 ∧
    (update_projectile FloatArith.exact ex_context ex_randf 0
      ex_tie_world).game_state.asteroids 2 =
      respawn_asteroid FloatArith.exact ex_context (ex_tie_world.game_state.asteroids 2)
        (ex_randf 0) (ex_randf 1) ∧
    (update_projectile FloatArith.exact ex_context ex_randf 0
      ex_tie_world).game_state.asteroids 5 = ex_tie_world.game_state.asteroids 5 ∧
    ((update_projectile FloatArith.exact ex_context ex_randf 0
      ex_tie_world).game_state.projectiles 0).active = false := by
  have hset : ∀ k : Fin NUM_ASTEROIDS,
      distance_between_sq FloatArith.exact (ex_tie_world.game_state.asteroids k).center
          { x := (ex_tie_world.game_state.projectiles 0).position.x +
              (ex_tie_world.game_state.projectiles 0).size / 2,
            y := (ex_tie_world.game_state.projectiles 0).position.y +
              ex_context.delta * (ex_tie_world.game_state.projectiles 0).velocity +
              (ex_tie_world.game_state.projectiles 0).size / 2 } <
        ((ex_tie_world.game_state.asteroids k).size / 2 +
          (ex_tie_world.game_state.projectiles 0).size / 2) ^ 2 ↔ k = 2 ∨ k = 5 := by
    decide!
  obtain ⟨m, hHm, hmin, hs, hm, hothers, hinactive⟩ :=
    (update_projectile_first_hit ex_context ex_randf 0 ex_tie_world rfl
      (by decide) (by decide)).1 ⟨2, (hset 2).mpr (Or.inl rfl)⟩
  have hm2 : m = 2 := by
    rcases (hset m).mp hHm with h | h
    · exact h
    · have hle : m ≤ 2 := hmin 2 ((hset 2).mpr (Or.inl rfl))
      rw [h] at hle
      exact absurd hle (by decide)
  subst hm2
  exact ⟨rfl, ⟨by decide, by decide⟩, hset, hs, hm, hothers 5 (by decide), hinactive⟩

theorem update_player_center_in_window_witness :
    (0 < ex_left_context.window_w ∧ 0 < ex_left_context.window_h ∧ 0 ≤ ex_left_context.delta) ∧
    (0 ≤ ex_edge_world.game_state.player.center.x ∧
      ex_edge_world.game_state.player.center.x ≤ ex_left_context.window_w) ∧
    (0 ≤ ex_edge_world.game_state.player.center.y ∧
      ex_edge_world.game_state.player.center.y ≤ ex_left_context.window_h) ∧
    (0 ≤ ex_edge_world.game_state.player.velocity * ex_left_context.delta ∧
      ex_edge_world.game_state.player.velocity * ex_left_context.delta <
        min ex_left_context.window_w ex_left_context.window_h) ∧
    (0 ≤ (update_player FloatArith.exact ex_left_context ex_edge_world).game_state.player.center.x ∧
      (update_player FloatArith.exact ex_left_context ex_edge_world).game_state.player.center.x ≤
        ex_left_context.window_w) ∧
    (0 ≤ (update_player FloatArith.exact ex_left_context ex_edge_world).game_state.player.center.y ∧
      (update_player FloatArith.exact ex_left_context ex_edge_world).game_state.player.center.y ≤
        ex_left_context.window_h) :=
  have h := update_player_center_in_window ex_left_context ex_edge_world
    (by decide!) (by decide!) (by decide!) (by decide!) (by decide!) (by decide!) (by decide!)
    (by decide!) (by decide!)
  ⟨by decide!, by decide!, by decide!, by decide!, h.1, h.2.1⟩

theorem foldl_invariant {α σ : Type} (P : σ → Prop) (f : σ → α → σ) (l : List α) (s : σ)
    (h0 : P s) (hstep : ∀ s a, P s → P (f s a)) : P (l.foldl f s) := by
  induction l generalizing s with
  | nil => exact h0
  | cons a l ih => exact ih (f s a) (hstep s a h0)

/-- An asteroid as `respawn_asteroid` leaves it: positive size, just above the window. -/
theorem respawn_asteroid_top {F : FloatArith} (context : SDLContext) (asteroid : Entity)
    (r1 r2 : ℚ) :
    0 < (respawn_asteroid F context asteroid r1 r2).size ∧
    (respawn_asteroid F context asteroid r1 r2).position.y =
      -(respawn_asteroid F context asteroid r1 r2).size :=
  ⟨respawn_asteroid_size_pos _ _ _ _, respawn_asteroid_position_y _ _ _ _⟩

theorem respawn_asteroid_at_frame {F : FloatArith} (context : SDLContext) (randf : Nat → ℚ)
    (i : Fin NUM_ASTEROIDS) (world : World) :
    (respawn_asteroid_at F context randf i world).game_state.player = world.game_state.player ∧
    (respawn_asteroid_at F context randf i world).game_state.player_score =
      world.game_state.player_score ∧
    (respawn_asteroid_at F context randf i world).game_state.projectiles =
      world.game_state.projectiles ∧
    (respawn_asteroid_at F context randf i world).trace = world.trace :=
  ⟨rfl, rfl, rfl, rfl⟩

/-- The asteroid loop of `reset_game` touches only the asteroids. -/
theorem respawn_all_frame {F : FloatArith} (context : SDLContext) (randf : Nat → ℚ)
    (slots : List (Fin NUM_ASTEROIDS)) (world : World) :
    (slots.foldl (fun world i => respawn_asteroid_at F context randf i world)
      world).game_state.player = world.game_state.player ∧
    (slots.foldl (fun world i => respawn_asteroid_at F context randf i world)
      world).game_state.player_score = world.game_state.player_score ∧
    (slots.foldl (fun world i => respawn_asteroid_at F context randf i world)
      world).game_state.projectiles = world.game_state.projectiles ∧
    (slots.foldl (fun world i => respawn_asteroid_at F context randf i world)
      world).trace = world.trace := by
  apply foldl_invariant (fun w : World =>
    w.game_state.player = world.game_state.player ∧
    w.game_state.player_score = world.game_state.player_score ∧
    w.game_state.projectiles = world.game_state.projectiles ∧
    w.trace = world.trace)
  · exact ⟨rfl, rfl, rfl, rfl⟩
  · intro s a h
    exact h

/-- After the asteroid loop of `reset_game` over `slots`, every listed asteroid has positive
size and sits at `-size`. -/
theorem respawn_all_top {F : FloatArith} (context : SDLContext) (randf : Nat → ℚ)
    (slots : List (Fin NUM_ASTEROIDS)) (world : World) (k : Fin NUM_ASTEROIDS)
    (hk : k ∈ slots ∨ (0 < (world.game_state.asteroids k).size ∧
      (world.game_state.asteroids k).position.y = -(world.game_state.asteroids k).size)) :
    0 < ((slots.foldl (fun world i => respawn_asteroid_at F context randf i world)
      world).game_state.asteroids k).size ∧
    ((slots.foldl (fun world i => respawn_asteroid_at F context randf i world)
      world).game_state.asteroids k).position.y =
      -((slots.foldl (fun world i => respawn_asteroid_at F context randf i world)
        world).game_state.asteroids k).size := by
  induction slots generalizing world with
  | nil =>
    rcases hk with hk | hk
    · exact absurd hk (List.not_mem_nil k)
    · exact hk
  | cons i slots ih =>
    rw [List.foldl_cons]
    apply ih
    by_cases hki : k = i
    · right
      subst hki
      rw [respawn_asteroid_at_asteroids, Function.update_same]
      exact respawn_asteroid_top _ _ _ _
    · rcases hk with hk | hk
      · left
        rcases List.mem_cons.mp hk with h | h
        · exact absurd h hki
        · exact h
      · right
        rw [respawn_asteroid_at_asteroids, Function.update_noteq hki]
        exact hk

/-- The projectile loop of `reset_game` in closed form. -/
theorem deactivate_all_eq (slots : List (Fin PROJECTILE_POOL_SIZE)) (game_state : GameState) :
    slots.foldl (fun game_state i => deactivate_projectile_at i game_state) game_state =
      { game_state with projectiles := fun j =>
          if j ∈ slots then deactivate_projectile (game_state.projectiles j)
          else game_state.projectiles j } := by
  induction slots generalizing game_state with
  | nil => simp
  | cons i slots ih =>
    rw [List.foldl_cons, ih]
    simp only [deactivate_projectile_at]
    congr 1
    funext j
    by_cases hji : j = i
    · subst hji
      by_cases hj : j ∈ slots
      · simp [hj, deactivate_projectile]
      · simp [hj]
    · by_cases hj : j ∈ slots
      · simp [hj, hji, Function.update_noteq hji]
      · simp [hj, hji, Function.update_noteq hji]

/-- What `reset_game` leaves: score 0, the player at the start position, every projectile
deactivated and otherwise as it was, every asteroid of positive size at `-size`, and
nothing emitted. -/
theorem reset_game_spec {F : FloatArith} (context : SDLContext) (randf : Nat → ℚ) (world : World) :
    (reset_game F context randf world).game_state.player_score = 0 ∧
    (reset_game F context randf world).game_state.projectiles =
      (fun j => deactivate_projectile (world.game_state.projectiles j)) ∧
    (reset_game F context randf world).game_state.player.position =
      { x := F.sub (F.div context.window_w 2) (F.div world.game_state.player.size 2),
        y := F.sub context.window_h (F.mul world.game_state.player.size 2) } ∧
    (reset_game F context randf world).game_state.player.size = world.game_state.player.size ∧
    (∀ k, 0 < ((reset_game F context randf world).game_state.asteroids k).size ∧
      ((reset_game F context randf world).game_state.asteroids k).position.y =
        -((reset_game F context randf world).game_state.asteroids k).size) ∧
    (reset_game F context randf world).trace = world.trace := by
  simp only [reset_game, deactivate_all_eq, List.mem_finRange, if_true]
  refine ⟨?_, ?_, ?_, ?_, ?_, ?_⟩
  · rw [(respawn_all_frame _ _ _ _).2.1]
  · rw [(respawn_all_frame _ _ _ _).2.2.1]
  · rw [(respawn_all_frame _ _ _ _).1]
  · rw [(respawn_all_frame _ _ _ _).1]
  · intro k
    exact respawn_all_top _ _ _ _ k (Or.inl (List.mem_finRange k))
  · rw [(respawn_all_frame _ _ _ _).2.2.2]

theorem asteroid_move_frame {F : FloatArith} (context : SDLContext) (i : Fin NUM_ASTEROIDS)
    (world : World) :
    (asteroid_move F context i world).game_state.player = world.game_state.player ∧
    (asteroid_move F context i world).game_state.player_score = world.game_state.player_score ∧
    (asteroid_move F context i world).game_state.projectiles = world.game_state.projectiles ∧
    (asteroid_move F context i world).trace = world.trace ∧
    (asteroid_move F context i world).rand_calls = world.rand_calls ∧
    (∀ k, k ≠ i → (asteroid_move F context i world).game_state.asteroids k =
      world.game_state.asteroids k) := by
  refine ⟨rfl, rfl, rfl, rfl, rfl, ?_⟩
  intro k hk
  simp only [asteroid_move, Function.update_noteq hk]

theorem asteroid_move_self {F : FloatArith} (context : SDLContext) (i : Fin NUM_ASTEROIDS)
    (world : World) :
    (asteroid_move F context i world).game_state.asteroids i =
      { world.game_state.asteroids i with
        position :=
          { x := (world.game_state.asteroids i).position.x,
            y := F.add (world.game_state.asteroids i).position.y
              (F.mul context.delta (world.game_state.asteroids i).velocity) }
        rect :=
          { x := (world.game_state.asteroids i).position.x,
            y := F.add (world.game_state.asteroids i).position.y
              (F.mul context.delta (world.game_state.asteroids i).velocity),
            w := (world.game_state.asteroids i).rect.w,
            h := (world.game_state.asteroids i).rect.h } } := by
  simp only [asteroid_move, Function.update_same]

/-- The distance test when the asteroid is not within collision distance: only a tint is
emitted. -/
theorem asteroid_check_player_far {F : FloatArith} (context : SDLContext) (randf : Nat → ℚ)
    (i : Fin NUM_ASTEROIDS) (world : World)
    (hfar : ¬ distance_between_sq F (world.game_state.asteroids i).position
      world.game_state.player.position < collision_distance_sq) :
    (asteroid_check_player F context randf i world).game_state = world.game_state ∧
    (asteroid_check_player F context randf i world).rand_calls = world.rand_calls ∧
    (asteroid_check_player F context randf i world).trace = world.trace ++
      [Event.SetTextureColorMod (world.game_state.asteroids i).texture_atlas
        (if distance_between_sq F (world.game_state.asteroids i).position
          world.game_state.player.position < warning_distance_sq then 0xCC else 0xFF)
        (if distance_between_sq F (world.game_state.asteroids i).position
          world.game_state.player.position < warning_distance_sq then 0xCC else 0xFF)
        (if distance_between_sq F (world.game_state.asteroids i).position
          world.game_state.player.position < warning_distance_sq then 0x00 else 0xFF)] := by
  simp only [asteroid_check_player, hfar, if_false]
  split_ifs <;> exact ⟨rfl, rfl, rfl⟩

theorem asteroid_check_player_near {F : FloatArith} (context : SDLContext) (randf : Nat → ℚ)
    (i : Fin NUM_ASTEROIDS) (world : World)
    (hnear : distance_between_sq F (world.game_state.asteroids i).position
      world.game_state.player.position < collision_distance_sq) :
    asteroid_check_player F context randf i world =
      reset_game F context randf { world with
        trace := world.trace ++
          [Event.SetTextureColorMod (world.game_state.asteroids i).texture_atlas 0xFF 0x00 0x00] } := by
  simp only [asteroid_check_player, hnear, if_true]

theorem asteroid_draw_and_recycle_frame {F : FloatArith} (context : SDLContext) (randf : Nat → ℚ)
    (i : Fin NUM_ASTEROIDS) (world : World) :
    (asteroid_draw_and_recycle F context randf i world).game_state.player =
      world.game_state.player ∧
    (asteroid_draw_and_recycle F context randf i world).game_state.player_score =
      world.game_state.player_score ∧
    (asteroid_draw_and_recycle F context randf i world).game_state.projectiles =
      world.game_state.projectiles ∧
    (asteroid_draw_and_recycle F context randf i world).trace = world.trace ++
      [Event.RenderTexture (world.game_state.asteroids i).texture_atlas
        (world.game_state.asteroids i).texture_rect (world.game_state.asteroids i).rect] ∧
    (∀ k, k ≠ i → (asteroid_draw_and_recycle F context randf i world).game_state.asteroids k =
      world.game_state.asteroids k) ∧
    (((asteroid_draw_and_recycle F context randf i world).game_state.asteroids i =
        world.game_state.asteroids i ∧
      (asteroid_draw_and_recycle F context randf i world).rand_calls = world.rand_calls) ∨
     ((asteroid_draw_and_recycle F context randf i world).game_state.asteroids i =
        respawn_asteroid F context (world.game_state.asteroids i)
          (randf world.rand_calls) (randf (world.rand_calls + 1)) ∧
      (asteroid_draw_and_recycle F context randf i world).rand_calls = world.rand_calls + 2)) := by
  unfold asteroid_draw_and_recycle
  simp only
  split_ifs
  · refine ⟨rfl, rfl, rfl, rfl, ?_, Or.inr ⟨?_, rfl⟩⟩
    · intro k hk
      rw [respawn_asteroid_at_asteroids]
      exact Function.update_noteq hk _ _
    · rw [respawn_asteroid_at_asteroids]
      exact Function.update_same _ _ _
  · exact ⟨rfl, rfl, rfl, rfl, fun _ _ => rfl, Or.inl ⟨rfl, rfl⟩⟩

/-- C4 (as stated, refuted): an asteroid that ends its move at squared distance exactly
`50 * 50 = 2500` from the player is inside the collision distance `64 * 64`: its iteration
emits the red tint `0xFF,0x00,0x00` and runs `reset_game` (score 5 becomes 0, twenty random
numbers are drawn), and the score is 0 when `update` returns. The coordinates are such that
the computation is the same with or without rounding. -/
theorem update_asteroid_resets_at_2500 :
    distance_between_sq FloatArith.exact
      { x := (ex_fifty_world.game_state.asteroids 0).position.x,
        y := (ex_fifty_world.game_state.asteroids 0).position.y +
          ex_context.delta * (ex_fifty_world.game_state.asteroids 0).velocity }
      ex_fifty_world.game_state.player.position = 50 * 50 ∧
    ex_fifty_world.game_state.player_score = 5 ∧
    (update_asteroid FloatArith.exact ex_context ex_randf 0 ex_fifty_world).trace =
      [Event.SetTextureColorMod 1 0xFF 0x00 0x00,
       Event.RenderTexture 1 ⟨0, 512, 128, 128⟩ ⟨300, -64, 64, 64⟩] ∧
    (update_asteroid FloatArith.exact ex_context ex_randf 0
      ex_fifty_world).game_state.player_score = 0 ∧
    (update_asteroid FloatArith.exact ex_context ex_randf 0 ex_fifty_world).rand_calls = 20 ∧
    (update FloatArith.exact ex_context ex_randf ex_fifty_world).game_state.player_score =
      0 := by
  decide!

/-- C4 (amended): whatever the `float` arithmetic `F`, an asteroid for which the squared
distance that the code computes (`distance_between_sq`) between its position after its move
and the player's position is `d` with `64 * 64 ≤ d < 100 * 100` gets the warning tint
`0xCC,0xCC,0x00` and no game reset: its iteration of the asteroid loop emits that tint and
the draw, leaves score, projectiles, player and every other asteroid as they were, and draws
at most the two random numbers of an off-screen respawn of this asteroid (`reset_game`
would draw twenty). -/
theorem update_asteroid_warning_no_reset (F : FloatArith) (context : SDLContext)
    (randf : Nat → ℚ) (i : Fin NUM_ASTEROIDS) (world : World)
    (hfar : 64 * 64 ≤ distance_between_sq F
      ((world.game_state.asteroids i).moved_position F context)
      world.game_state.player.position)
    (hwarn : distance_between_sq F
      ((world.game_state.asteroids i).moved_position F context)
      world.game_state.player.position < 100 * 100) :
    let asteroid := world.game_state.asteroids i
    let moved : Entity :=
      { asteroid with
        position := asteroid.moved_position F context
        rect :=
          { x := asteroid.position.x, y := (asteroid.moved_position F context).y,
            w := asteroid.rect.w, h := asteroid.rect.h } }
    let world' := update_asteroid F context randf i world
    world'.trace = world.trace ++
      [Event.SetTextureColorMod asteroid.texture_atlas 0xCC 0xCC 0x00,
       Event.RenderTexture asteroid.texture_atlas asteroid.texture_rect moved.rect] ∧
    world'.game_state.player_score = world.game_state.player_score ∧
    world'.game_state.projectiles = world.game_state.projectiles ∧
    world'.game_state.player = world.game_state.player ∧
    (∀ k, k ≠ i → world'.game_state.asteroids k = world.game_state.asteroids k) ∧
    ((world'.game_state.asteroids i = moved ∧ world'.rand_calls = world.rand_calls) ∨
     (world'.game_state.asteroids i =
        respawn_asteroid F context moved (randf world.rand_calls) (randf (world.rand_calls + 1)) ∧
      world'.rand_calls = world.rand_calls + 2)) := by
  intro asteroid moved world'
  obtain ⟨hmp, hms, hmq, hmt, hmr, hmo⟩ := @asteroid_move_frame F context i world
  have hself : (asteroid_move F context i world).game_state.asteroids i = moved :=
    asteroid_move_self context i world
  have hfar' : ¬ distance_between_sq F
      ((asteroid_move F context i world).game_state.asteroids i).position
      (asteroid_move F context i world).game_state.player.position < collision_distance_sq := by
    rw [hself, hmp]; exact not_lt.mpr hfar
  have hwarn' : distance_between_sq F
      ((asteroid_move F context i world).game_state.asteroids i).position
      (asteroid_move F context i world).game_state.player.position < warning_distance_sq := by
    rw [hself, hmp]; exact hwarn
  obtain ⟨hcg, hcr, hct⟩ := asteroid_check_player_far context randf i _ hfar'
  obtain ⟨hdp, hds, hdq, hdt, hdo, hdi⟩ := asteroid_draw_and_recycle_frame context randf i
    (asteroid_check_player F context randf i (asteroid_move F context i world))
  simp only [hwarn', if_true] at hct
  rw [hcg] at hdp hds hdq hdt hdo hdi
  rw [hcr, hmr, hself] at hdi
  rw [hself] at hct hdt
  refine ⟨?_, hds.trans hms, hdq.trans hmq, hdp.trans hmp, ?_, hdi⟩
  · show (asteroid_draw_and_recycle F context randf i
      (asteroid_check_player F context randf i (asteroid_move F context i world))).trace = _
    rw [hdt, hct, hmt, List.append_assoc]
    rfl
  · intro k hk
    exact (hdo k hk).trans (hmo k hk)

theorem update_asteroid_warning_no_reset_witness :
    (64 * 64 ≤ distance_between_sq FloatArith.exact
      ((ex_warning_world.game_state.asteroids 0).moved_position FloatArith.exact ex_context)
      ex_warning_world.game_state.player.position ∧
    distance_between_sq FloatArith.exact
      ((ex_warning_world.game_state.asteroids 0).moved_position FloatArith.exact ex_context)
      ex_warning_world.game_state.player.position < 100 * 100) ∧
    (update_asteroid FloatArith.exact ex_context ex_randf 0 ex_warning_world).trace =
      [Event.SetTextureColorMod 1 0xCC 0xCC 0x00,
       Event.RenderTexture 1 ⟨0, 512, 128, 128⟩ ⟨220, 608, 64, 64⟩] ∧
    (update_asteroid FloatArith.exact ex_context ex_randf 0
      ex_warning_world).game_state.player_score = ex_warning_world.game_state.player_score :=
  have h := update_asteroid_warning_no_reset FloatArith.exact ex_context ex_randf 0
    ex_warning_world (by decide!) (by decide!)
  ⟨by decide!, h.1.trans (by decide!), h.2.1⟩

theorem asteroid_move_position {F : FloatArith} (context : SDLContext) (i : Fin NUM_ASTEROIDS)
    (world : World) :
    ((asteroid_move F context i world).game_state.asteroids i).position =
      (world.game_state.asteroids i).moved_position F context := by
  rw [asteroid_move_self]
  rfl

/-- An iteration of the asteroid loop that finds the asteroid within collision distance
of the player ends in the reset state, with every asteroid at the top. -/
theorem update_asteroid_collision {F : FloatArith} (context : SDLContext) (randf : Nat → ℚ)
    (i : Fin NUM_ASTEROIDS) (world : World)
    (hnear : distance_between_sq F ((world.game_state.asteroids i).moved_position F context)
      world.game_state.player.position < collision_distance_sq) :
    after_reset F context (update_asteroid F context randf i world).game_state ∧
    (∀ k, ((update_asteroid F context randf i world).game_state.asteroids k).at_top) ∧
    (update_asteroid F context randf i world).game_state.player.size =
      world.game_state.player.size ∧
    (update_asteroid F context randf i world).game_state.projectiles =
      (fun j => deactivate_projectile (world.game_state.projectiles j)) := by
  obtain ⟨hmp, -, hmq, -, -, -⟩ := asteroid_move_frame context i world
  have hnear' : distance_between_sq F
      ((asteroid_move F context i world).game_state.asteroids i).position
      (asteroid_move F context i world).game_state.player.position < collision_distance_sq := by
    rw [asteroid_move_position, hmp]; exact hnear
  have hcheck := asteroid_check_player_near context randf i _ hnear'
  obtain ⟨hrs, hrq, hrp, hrz, hra, -⟩ := reset_game_spec context randf
    { asteroid_move F context i world with
      trace := (asteroid_move F context i world).trace ++
        [Event.SetTextureColorMod
          ((asteroid_move F context i world).game_state.asteroids i).texture_atlas 0xFF 0x00 0x00] }
  rw [← hcheck] at hrs hrq hrp hrz hra
  obtain ⟨hdp, hds, hdq, -, hdo, hdi⟩ := asteroid_draw_and_recycle_frame context randf i
    (asteroid_check_player F context randf i (asteroid_move F context i world))
  have hsize : (update_asteroid F context randf i world).game_state.player.size =
      world.game_state.player.size := by
    show (asteroid_draw_and_recycle F context randf i _).game_state.player.size = _
    rw [hdp, hrz, hmp]
  have hproj : (update_asteroid F context randf i world).game_state.projectiles =
      (fun j => deactivate_projectile (world.game_state.projectiles j)) := by
    show (asteroid_draw_and_recycle F context randf i _).game_state.projectiles = _
    rw [hdq, hrq, hmq]
  refine ⟨⟨?_, ?_, ?_⟩, ?_, hsize, hproj⟩
  · show (asteroid_draw_and_recycle F context randf i _).game_state.player_score = 0
    rw [hds, hrs]
  · intro j
    rw [hproj]
    rfl
  · rw [hsize]
    show (asteroid_draw_and_recycle F context randf i _).game_state.player.position = _
    rw [hdp, hrp, hmp]
  · intro k
    show ((asteroid_draw_and_recycle F context randf i _).game_state.asteroids k).at_top
    by_cases hk : k = i
    · subst hk
      rcases hdi with ⟨h, -⟩ | ⟨h, -⟩
      · rw [h]; exact hra k
      · rw [h]; exact respawn_asteroid_top _ _ _ _
    · rw [hdo k hk]; exact hra k

/-- An iteration of the asteroid loop that finds the asteroid outside collision distance
touches only that asteroid. -/
theorem update_asteroid_no_collision {F : FloatArith} (context : SDLContext) (randf : Nat → ℚ)
    (i : Fin NUM_ASTEROIDS) (world : World)
    (hfar : ¬ distance_between_sq F ((world.game_state.asteroids i).moved_position F context)
      world.game_state.player.position < collision_distance_sq) :
    (update_asteroid F context randf i world).game_state.player = world.game_state.player ∧
    (update_asteroid F context randf i world).game_state.player_score =
      world.game_state.player_score ∧
    (update_asteroid F context randf i world).game_state.projectiles =
      world.game_state.projectiles ∧
    (∀ k, k ≠ i → (update_asteroid F context randf i world).game_state.asteroids k =
      world.game_state.asteroids k) ∧
    ((update_asteroid F context randf i world).game_state.asteroids i =
        (asteroid_move F context i world).game_state.asteroids i ∨
      ((update_asteroid F context randf i world).game_state.asteroids i).at_top) := by
  obtain ⟨hmp, hms, hmq, -, -, hmo⟩ := asteroid_move_frame context i world
  have hfar' : ¬ distance_between_sq F
      ((asteroid_move F context i world).game_state.asteroids i).position
      (asteroid_move F context i world).game_state.player.position < collision_distance_sq := by
    rw [asteroid_move_position, hmp]; exact hfar
  obtain ⟨hcg, -, -⟩ := asteroid_check_player_far context randf i _ hfar'
  obtain ⟨hdp, hds, hdq, -, hdo, hdi⟩ := asteroid_draw_and_recycle_frame context randf i
    (asteroid_check_player F context randf i (asteroid_move F context i world))
  rw [hcg] at hdp hds hdq hdo hdi
  refine ⟨hdp.trans hmp, hds.trans hms, hdq.trans hmq, ?_, ?_⟩
  · intro k hk
    exact (hdo k hk).trans (hmo k hk)
  · rcases hdi with ⟨h, -⟩ | ⟨h, -⟩
    · exact Or.inl h
    · right
      show ((asteroid_draw_and_recycle F context randf i _).game_state.asteroids i).at_top
      rw [h]
      exact respawn_asteroid_top _ _ _ _

/-- The reset state survives an iteration of the asteroid loop. -/
theorem update_asteroid_keeps_reset {F : FloatArith} (context : SDLContext) (randf : Nat → ℚ)
    (i : Fin NUM_ASTEROIDS) (world : World) (h : after_reset F context world.game_state) :
    after_reset F context (update_asteroid F context randf i world).game_state := by
  by_cases hnear : distance_between_sq F ((world.game_state.asteroids i).moved_position F context)
      world.game_state.player.position < collision_distance_sq
  · exact (update_asteroid_collision context randf i world hnear).1
  · obtain ⟨hp, hs, hq, -, -⟩ := update_asteroid_no_collision context randf i world hnear
    unfold after_reset
    rw [hp, hs, hq]
    exact h

/-- The asteroid loop over `slots` ends in the reset state as soon as one listed asteroid,
moved from where it starts, is within collision distance of the player. -/
theorem update_asteroids_reset {F : FloatArith} (context : SDLContext) (randf : Nat → ℚ)
    (slots : List (Fin NUM_ASTEROIDS)) (world : World)
    (h : ∃ k ∈ slots,
      distance_between_sq F ((world.game_state.asteroids k).moved_position F context)
        world.game_state.player.position < collision_distance_sq) :
    after_reset F context
      (slots.foldl (fun world i => update_asteroid F context randf i world) world).game_state := by
  induction slots generalizing world with
  | nil =>
    obtain ⟨k, hk, -⟩ := h
    exact absurd hk (List.not_mem_nil k)
  | cons i slots ih =>
    rw [List.foldl_cons]
    by_cases hnear : distance_between_sq F ((world.game_state.asteroids i).moved_position F context)
        world.game_state.player.position < collision_distance_sq
    · exact foldl_invariant (fun w : World => after_reset F context w.game_state) _ slots _
        (update_asteroid_collision context randf i world hnear).1
        (fun w a hw => update_asteroid_keeps_reset context randf a w hw)
    · obtain ⟨hp, -, -, ho, -⟩ := update_asteroid_no_collision context randf i world hnear
      apply ih
      obtain ⟨k, hk, hd⟩ := h
      have hki : k ≠ i := by
        rintro rfl
        exact hnear hd
      refine ⟨k, ?_, ?_⟩
      · rcases List.mem_cons.mp hk with h1 | h1
        · exact absurd h1 hki
        · exact h1
      · rw [ho k hki, hp]
        exact hd

/-- With no projectile in flight the projectile loop does nothing. -/
theorem update_projectiles_idle {F : FloatArith} (context : SDLContext) (randf : Nat → ℚ)
    (slots : List (Fin PROJECTILE_POOL_SIZE)) (world : World)
    (h : ∀ j, (world.game_state.projectiles j).active = false) :
    slots.foldl (fun world p => update_projectile F context randf p world) world = world := by
  induction slots with
  | nil => rfl
  | cons p slots ih =>
    rw [List.foldl_cons]
    have : update_projectile F context randf p world = world := by
      simp only [update_projectile, h p, Bool.false_eq_true, if_false]
    rw [this]
    exact ih

theorem update_player_frame {F : FloatArith} (context : SDLContext) (world : World) :
    (update_player F context world).game_state.asteroids = world.game_state.asteroids ∧
    (update_player F context world).game_state.projectiles = world.game_state.projectiles ∧
    (update_player F context world).game_state.player_score = world.game_state.player_score ∧
    (update_player F context world).game_state.player.size = world.game_state.player.size ∧
    (update_player F context world).rand_calls = world.rand_calls := by
  refine ⟨rfl, rfl, rfl, ?_, rfl⟩
  simp only [update_player]
  unfold player_movement
  split_ifs <;> rfl

theorem collision_hit_frame {F : FloatArith} (context : SDLContext) (randf : Nat → ℚ)
    (p : Fin PROJECTILE_POOL_SIZE) (i : Fin NUM_ASTEROIDS) (world : World) :
    (collision_hit F context randf p i world).game_state.projectiles =
      Function.update world.game_state.projectiles p
        (deactivate_projectile (world.game_state.projectiles p)) ∧
    (collision_hit F context randf p i world).game_state.player = world.game_state.player ∧
    (collision_hit F context randf p i world).trace = world.trace ++ [Event.Collision p i] :=
  ⟨rfl, rfl, rfl⟩

/-- One iteration of the projectile loop, for slot `p`: either nothing was emitted beyond
the draw and the slot holds the advanced projectile, or exactly one collision of `p` was
recorded and the slot is inactive. No other slot changes. -/
theorem update_projectile_cases {F : FloatArith} (context : SDLContext) (randf : Nat → ℚ)
    (p : Fin PROJECTILE_POOL_SIZE) (world : World) :
    update_projectile F context randf p world = world ∧
      (world.game_state.projectiles p).active = false ∨
    (world.game_state.projectiles p).active = true ∧
      (update_projectile F context randf p world = advance_projectile F context p world ∨
        ∃ m, update_projectile F context randf p world =
          collision_hit F context randf p m (advance_projectile F context p world)) := by
  by_cases hactive : (world.game_state.projectiles p).active = true
  · right
    refine ⟨hactive, ?_⟩
    have hupd : update_projectile F context randf p world =
        check_collisions F context randf p (List.finRange NUM_ASTEROIDS)
          (advance_projectile F context p world) := by
      simp only [update_projectile, hactive, if_true]
    rcases check_collisions_spec context randf p (List.finRange NUM_ASTEROIDS)
        (advance_projectile F context p world) (List.pairwise_lt_finRange _) with
      ⟨-, heq⟩ | ⟨m, -, -, -, heq⟩
    · exact Or.inl (hupd.trans heq)
    · exact Or.inr ⟨m, hupd.trans heq⟩
  · left
    have hoff : (world.game_state.projectiles p).active = false := by
      simpa using hactive
    refine ⟨?_, hoff⟩
    simp only [update_projectile, hoff, Bool.false_eq_true, if_false]

theorem advance_projectile_self {F : FloatArith} (context : SDLContext)
    (p : Fin PROJECTILE_POOL_SIZE)
    (world : World) :
    ((advance_projectile F context p world).game_state.projectiles p).active =
      (if F.add (F.add (world.game_state.projectiles p).position.y
            (F.mul context.delta (world.game_state.projectiles p).velocity))
            (world.game_state.projectiles p).size < 0 ∨
          F.add (world.game_state.projectiles p).position.y
            (F.mul context.delta (world.game_state.projectiles p).velocity) > context.window_h
        then false else (world.game_state.projectiles p).active) := by
  simp only [advance_projectile, Function.update_same]
  split_ifs <;> rfl

/-- An iteration of the projectile loop leaves every other slot as it was. -/
theorem update_projectile_other {F : FloatArith} (context : SDLContext) (randf : Nat → ℚ)
    (p q : Fin PROJECTILE_POOL_SIZE) (world : World) (hq : q ≠ p) :
    (update_projectile F context randf p world).game_state.projectiles q =
      world.game_state.projectiles q := by
  obtain ⟨-, -, -, -, hother⟩ := advance_projectile_frame context p world
  rcases update_projectile_cases context randf p world with ⟨h, -⟩ | ⟨-, h | ⟨m, h⟩⟩
  · rw [h]
  · rw [h]; exact hother q hq
  · rw [h, (collision_hit_frame _ _ _ _ _).1, Function.update_noteq hq]
    exact hother q hq

/-- An inactive slot stays inactive through an iteration of the projectile loop. -/
theorem update_projectile_keeps_inactive {F : FloatArith} (context : SDLContext) (randf : Nat → ℚ)
    (p q : Fin PROJECTILE_POOL_SIZE) (world : World)
    (h : (world.game_state.projectiles q).active = false) :
    ((update_projectile F context randf p world).game_state.projectiles q).active = false := by
  by_cases hq : q = p
  · subst hq
    rcases update_projectile_cases context randf q world with ⟨h1, -⟩ | ⟨h1, -⟩
    · rw [h1]; exact h
    · rw [h] at h1; exact Bool.noConfusion h1
  · rw [update_projectile_other context randf p q world hq]
    exact h

/-- An active projectile that is off screen after its move is inactive after its
iteration of the projectile loop. -/
theorem update_projectile_off_screen {F : FloatArith} (context : SDLContext) (randf : Nat → ℚ)
    (p : Fin PROJECTILE_POOL_SIZE) (world : World)
    (hoff : F.add (F.add (world.game_state.projectiles p).position.y
            (F.mul context.delta (world.game_state.projectiles p).velocity))
            (world.game_state.projectiles p).size < 0 ∨
        F.add (world.game_state.projectiles p).position.y
            (F.mul context.delta (world.game_state.projectiles p).velocity) > context.window_h) :
    ((update_projectile F context randf p world).game_state.projectiles p).active = false := by
  rcases update_projectile_cases context randf p world with ⟨h, hq⟩ | ⟨-, h | ⟨m, h⟩⟩
  · rw [h]; exact hq
  · rw [h, advance_projectile_self, if_pos hoff]
  · rw [h, (collision_hit_frame _ _ _ _ _).1, Function.update_same]
    rfl

/-- The projectile loop over `slots`: a slot that is inactive, or holds an active
projectile that is off screen after its move, is inactive at the end if it is listed. -/
theorem update_projectiles_off_screen {F : FloatArith} (context : SDLContext) (randf : Nat → ℚ)
    (slots : List (Fin PROJECTILE_POOL_SIZE)) (world : World) (i : Fin PROJECTILE_POOL_SIZE)
    (hi : i ∈ slots)
    (h : (world.game_state.projectiles i).active = false ∨
      (F.add (F.add (world.game_state.projectiles i).position.y
            (F.mul context.delta (world.game_state.projectiles i).velocity))
            (world.game_state.projectiles i).size < 0 ∨
        F.add (world.game_state.projectiles i).position.y
            (F.mul context.delta (world.game_state.projectiles i).velocity) > context.window_h)) :
    ((slots.foldl (fun world p => update_projectile F context randf p world)
      world).game_state.projectiles i).active = false := by
  induction slots generalizing world with
  | nil => exact absurd hi (List.not_mem_nil i)
  | cons p slots ih =>
    rw [List.foldl_cons]
    by_cases hip : i = p
    · subst hip
      apply foldl_invariant (fun w : World => (w.game_state.projectiles i).active = false)
      · rcases h with h | h
        · exact update_projectile_keeps_inactive context randf i i world h
        · exact update_projectile_off_screen context randf i world h
      · intro w a hw
        exact update_projectile_keeps_inactive context randf a i w hw
    · apply ih
      · rcases List.mem_cons.mp hi with h1 | h1
        · exact absurd h1 hip
        · exact h1
      · rw [update_projectile_other context randf p i world hip]
        exact h

/-- An iteration of the asteroid loop leaves each projectile as it was or deactivated. -/
theorem update_asteroid_projectile {F : FloatArith} (context : SDLContext) (randf : Nat → ℚ)
    (i : Fin NUM_ASTEROIDS) (world : World) (j : Fin PROJECTILE_POOL_SIZE) :
    (update_asteroid F context randf i world).game_state.projectiles j =
        world.game_state.projectiles j ∨
      (update_asteroid F context randf i world).game_state.projectiles j =
        deactivate_projectile (world.game_state.projectiles j) := by
  by_cases hnear : distance_between_sq F ((world.game_state.asteroids i).moved_position F context)
      world.game_state.player.position < collision_distance_sq
  · right
    rw [(update_asteroid_collision context randf i world hnear).2.2.2]
  · left
    rw [(update_asteroid_no_collision context randf i world hnear).2.2.1]

/-- The asteroid loop leaves each projectile as it was or deactivated. -/
theorem update_asteroids_projectile {F : FloatArith} (context : SDLContext) (randf : Nat → ℚ)
    (world : World) (j : Fin PROJECTILE_POOL_SIZE) :
    (update_asteroids F context randf world).game_state.projectiles j =
        world.game_state.projectiles j ∨
      (update_asteroids F context randf world).game_state.projectiles j =
        deactivate_projectile (world.game_state.projectiles j) := by
  apply foldl_invariant (fun w : World =>
    w.game_state.projectiles j = world.game_state.projectiles j ∨
    w.game_state.projectiles j = deactivate_projectile (world.game_state.projectiles j))
  · exact Or.inl rfl
  · intro w a hw
    rcases update_asteroid_projectile context randf a w j with h | h <;>
      rcases hw with hw | hw <;> rw [h, hw]
    · exact Or.inl rfl
    · exact Or.inr rfl
    · exact Or.inr rfl
    · exact Or.inr rfl

/-- C7: whatever the `float` arithmetic `F`, a projectile slot that is active at the start
of `update` and whose position after its move satisfies `y + size < 0` or `y > window_h`
(the move and the test as the code computes them) is inactive when `update` returns. -/
theorem update_deactivates_off_screen_projectile (F : FloatArith) (context : SDLContext)
    (randf : Nat → ℚ) (world : World) (i : Fin PROJECTILE_POOL_SIZE)
    (hactive : (world.game_state.projectiles i).active = true)
    (hoff : F.add (F.add (world.game_state.projectiles i).position.y
          (F.mul context.delta (world.game_state.projectiles i).velocity))
          (world.game_state.projectiles i).size < 0 ∨
        F.add (world.game_state.projectiles i).position.y
          (F.mul context.delta (world.game_state.projectiles i).velocity) > context.window_h) :
    ((update F context randf world).game_state.projectiles i).active = false := by
  have hstart : ((update_asteroids F context randf
        (update_player F context world)).game_state.projectiles i).active = false ∨
      (F.add (F.add ((update_asteroids F context randf
          (update_player F context world)).game_state.projectiles i).position.y
          (F.mul context.delta ((update_asteroids F context randf
            (update_player F context world)).game_state.projectiles i).velocity))
          ((update_asteroids F context randf
            (update_player F context world)).game_state.projectiles i).size < 0 ∨
        F.add ((update_asteroids F context randf
          (update_player F context world)).game_state.projectiles i).position.y
          (F.mul context.delta ((update_asteroids F context randf
            (update_player F context world)).game_state.projectiles i).velocity) >
          context.window_h) := by
    rcases update_asteroids_projectile context randf (update_player F context world) i with h | h
    · right
      rw [h, (update_player_frame context world).2.1]
      exact hoff
    · left
      rw [h]
      rfl
  exact update_projectiles_off_screen context randf (List.finRange PROJECTILE_POOL_SIZE)
    (update_asteroids F context randf (update_player F context world)) i
    (List.mem_finRange i) hstart

theorem update_deactivates_off_screen_projectile_witness :
    (ex_leaving_world.game_state.projectiles 0).active = true ∧
    ((ex_leaving_world.game_state.projectiles 0).position.y +
          ex_context.delta * (ex_leaving_world.game_state.projectiles 0).velocity +
          (ex_leaving_world.game_state.projectiles 0).size < 0 ∨
        (ex_leaving_world.game_state.projectiles 0).position.y +
          ex_context.delta * (ex_leaving_world.game_state.projectiles 0).velocity >
          ex_context.window_h) ∧
    ((update FloatArith.exact ex_context ex_randf ex_leaving_world).game_state.projectiles 0).active = false :=
  ⟨rfl, by decide!,
    update_deactivates_off_screen_projectile FloatArith.exact ex_context ex_randf
      ex_leaving_world 0 rfl
      (by decide!)⟩

theorem at_top_near_top {F : FloatArith} (context : SDLContext) (e : Entity) (h : e.at_top) :
    e.near_top F context :=
  ⟨h.1, Or.inl h.2⟩

/-- Once every asteroid still to be processed is at the top and every other one is near
the top, the asteroid loop ends with every asteroid near the top. -/
theorem update_asteroids_near_top {F : FloatArith} (context : SDLContext) (randf : Nat → ℚ)
    (slots : List (Fin NUM_ASTEROIDS)) (world : World) (hnodup : slots.Nodup)
    (hin : ∀ k ∈ slots, (world.game_state.asteroids k).at_top)
    (hout : ∀ k, k ∉ slots → (world.game_state.asteroids k).near_top F context) :
    ∀ k, ((slots.foldl (fun world i => update_asteroid F context randf i world)
      world).game_state.asteroids k).near_top F context := by
  induction slots generalizing world with
  | nil => exact fun k => hout k (List.not_mem_nil k)
  | cons i slots ih =>
    rw [List.foldl_cons]
    rw [List.nodup_cons] at hnodup
    by_cases hnear : distance_between_sq F ((world.game_state.asteroids i).moved_position F context)
        world.game_state.player.position < collision_distance_sq
    · have htop := (update_asteroid_collision context randf i world hnear).2.1
      exact ih _ hnodup.2 (fun k _ => htop k) (fun k _ => at_top_near_top context _ (htop k))
    · obtain ⟨-, -, -, ho, hi⟩ := update_asteroid_no_collision context randf i world hnear
      apply ih _ hnodup.2
      · intro k hk
        have hki : k ≠ i := by
          rintro rfl
          exact hnodup.1 hk
        rw [ho k hki]
        exact hin k (List.mem_cons_of_mem _ hk)
      · intro k hk
        by_cases hki : k = i
        · subst hki
          rcases hi with h | h
          · rw [h, asteroid_move_self]
            have hk_top := hin k (List.mem_cons_self _ _)
            refine ⟨hk_top.1, Or.inr ?_⟩
            show F.add (world.game_state.asteroids k).position.y
              (F.mul context.delta (world.game_state.asteroids k).velocity) = _
            rw [hk_top.2]
          · exact at_top_near_top context _ h
        · rw [ho k hki]
          apply hout k
          intro hmem
          rcases List.mem_cons.mp hmem with h | h
          · exact hki h
          · exact hk h

/-- The asteroid loop over `slots`, when some listed asteroid triggers the reset, ends with
every asteroid near the top. -/
theorem update_asteroids_reset_near_top {F : FloatArith} (context : SDLContext) (randf : Nat → ℚ)
    (slots : List (Fin NUM_ASTEROIDS)) (world : World) (hnodup : slots.Nodup)
    (h : ∃ k ∈ slots,
      distance_between_sq F ((world.game_state.asteroids k).moved_position F context)
        world.game_state.player.position < collision_distance_sq) :
    ∀ k, ((slots.foldl (fun world i => update_asteroid F context randf i world)
      world).game_state.asteroids k).near_top F context := by
  induction slots generalizing world with
  | nil =>
    obtain ⟨k, hk, -⟩ := h
    exact absurd hk (List.not_mem_nil k)
  | cons i slots ih =>
    rw [List.foldl_cons]
    rw [List.nodup_cons] at hnodup
    by_cases hnear : distance_between_sq F ((world.game_state.asteroids i).moved_position F context)
        world.game_state.player.position < collision_distance_sq
    · have htop := (update_asteroid_collision context randf i world hnear).2.1
      exact update_asteroids_near_top context randf slots _ hnodup.2 (fun k _ => htop k)
        (fun k _ => at_top_near_top context _ (htop k))
    · obtain ⟨hp, -, -, ho, -⟩ := update_asteroid_no_collision context randf i world hnear
      apply ih _ hnodup.2
      obtain ⟨k, hk, hd⟩ := h
      have hki : k ≠ i := by
        rintro rfl
        exact hnear hd
      refine ⟨k, ?_, ?_⟩
      · rcases List.mem_cons.mp hk with h1 | h1
        · exact absurd h1 hki
        · exact h1
      · rw [ho k hki, hp]
        exact hd

/-- C9 (as stated, refuted): with `delta = 1/60`, asteroid 0 on top of the player and every
draw one half, the reset happens in the iteration of asteroid 0; asteroid 1 then makes its
move of the frame from `-64` and ends at `-64 + 256/60 = -896/15` (exact arithmetic), not at
`-size = -64`. -/
theorem update_reset_then_asteroid_moves :
    0 ≤ ex_context.delta ∧
    distance_between_sq FloatArith.exact
      { x := (ex_crash_world.game_state.asteroids 0).position.x,
        y := (ex_crash_world.game_state.asteroids 0).position.y +
          ex_context.delta * (ex_crash_world.game_state.asteroids 0).velocity }
      (update_player FloatArith.exact ex_context ex_crash_world).game_state.player.position <
        64 * 64 ∧
    ((update FloatArith.exact ex_context ex_randf ex_crash_world).game_state.asteroids 1).size =
      64 ∧
    ((update FloatArith.exact ex_context ex_randf
      ex_crash_world).game_state.asteroids 1).position.y = -896 / 15 ∧
    ((update FloatArith.exact ex_context ex_randf
      ex_crash_world).game_state.asteroids 1).position.y ≠
      -((update FloatArith.exact ex_context ex_randf
        ex_crash_world).game_state.asteroids 1).size := by
  decide!

/-- C9 (amended): whatever the `float` arithmetic `F`, with `delta ≥ 0`, if for some asteroid
the squared distance that the code computes (`distance_between_sq`) between the asteroid's
position after its downward move and the player's position after the player's move and wrap
is `< 64 * 64`, then when `update` returns every one of the 10 asteroids has positive size
and vertical position either `-size` or the sum `-size + delta * velocity` as the code
computes it (one move of this frame below `-size`, for asteroids processed after the
reset). -/
theorem update_reset_asteroids_near_top (F : FloatArith) (context : SDLContext)
    (randf : Nat → ℚ) (world : World) (k : Fin NUM_ASTEROIDS) (hdelta : 0 ≤ context.delta)
    (hk : distance_between_sq F
      ((world.game_state.asteroids k).moved_position F context)
      (update_player F context world).game_state.player.position < 64 * 64) :
    ∀ j, 0 < ((update F context randf world).game_state.asteroids j).size ∧
      (((update F context randf world).game_state.asteroids j).position.y =
          -((update F context randf world).game_state.asteroids j).size ∨
        ((update F context randf world).game_state.asteroids j).position.y =
          F.add (-((update F context randf world).game_state.asteroids j).size)
            (F.mul context.delta
              ((update F context randf world).game_state.asteroids j).velocity)) := by
  obtain ⟨hpa, -, -, -, -⟩ := @update_player_frame F context world
  have hex : ∃ k ∈ List.finRange NUM_ASTEROIDS,
      distance_between_sq F
        (((update_player F context world).game_state.asteroids k).moved_position F context)
        (update_player F context world).game_state.player.position < collision_distance_sq := by
    refine ⟨k, List.mem_finRange k, ?_⟩
    rw [hpa]
    exact hk
  have hreset : after_reset F context (update_asteroids F context randf
      (update_player F context world)).game_state :=
    update_asteroids_reset context randf _ _ hex
  have hidle : update F context randf world =
      update_asteroids F context randf (update_player F context world) :=
    update_projectiles_idle context randf _ _ hreset.2.1
  rw [hidle]
  exact update_asteroids_reset_near_top context randf (List.finRange NUM_ASTEROIDS)
    (update_player F context world) (List.nodup_finRange _) hex

theorem update_reset_asteroids_near_top_witness :
    0 ≤ ex_context.delta ∧
    distance_between_sq FloatArith.exact
      ((ex_busy_crash_world.game_state.asteroids 3).moved_position FloatArith.exact ex_context)
      (update_player FloatArith.exact ex_context ex_busy_crash_world).game_state.player.position
        < 64 * 64 ∧
    (((update FloatArith.exact ex_context ex_randf
        ex_busy_crash_world).game_state.asteroids 3).position.y = -64 ∧
      ((update FloatArith.exact ex_context ex_randf
        ex_busy_crash_world).game_state.asteroids 9).position.y = -64 + 1 / 60 * 256) ∧
    (∀ j, 0 < ((update FloatArith.exact ex_context ex_randf
        ex_busy_crash_world).game_state.asteroids j).size ∧
      (((update FloatArith.exact ex_context ex_randf
          ex_busy_crash_world).game_state.asteroids j).position.y =
          -((update FloatArith.exact ex_context ex_randf
            ex_busy_crash_world).game_state.asteroids j).size ∨
        ((update FloatArith.exact ex_context ex_randf
          ex_busy_crash_world).game_state.asteroids j).position.y =
          -((update FloatArith.exact ex_context ex_randf
            ex_busy_crash_world).game_state.asteroids j).size +
            ex_context.delta * ((update FloatArith.exact ex_context ex_randf
              ex_busy_crash_world).game_state.asteroids j).velocity)) :=
  ⟨by decide!, by decide!, by decide!,
    update_reset_asteroids_near_top FloatArith.exact ex_context ex_randf ex_busy_crash_world 3
      (by decide!) (by decide!)⟩

theorem countP_snoc {α : Type} (f : α → Bool) (l : List α) (a : α) :
    (l ++ [a]).countP f = l.countP f + (if f a = true then 1 else 0) := by
  rw [List.countP_append, List.countP_cons, List.countP_nil, Nat.zero_add]

theorem countP_snoc_false {α : Type} (f : α → Bool) (l : List α) (a : α) (h : f a = false) :
    (l ++ [a]).countP f = l.countP f := by
  rw [countP_snoc, h]
  simp

theorem update_player_countP {F : FloatArith} (context : SDLContext) (world : World)
    (f : Event → Bool)
    (hf : ∀ e, e.is_collision = false → f e = false) :
    (update_player F context world).trace.countP f = world.trace.countP f := by
  have htrace : ∃ texture r g b src dst, (update_player F context world).trace =
      (world.trace ++ [Event.SetTextureColorMod texture r g b]) ++
        [Event.RenderTexture texture src dst] :=
    ⟨_, _, _, _, _, _, by rw [List.append_assoc]; rfl⟩
  obtain ⟨texture, r, g, b, src, dst, ht⟩ := htrace
  rw [ht, countP_snoc_false f _ (Event.RenderTexture texture src dst) (hf _ rfl),
    countP_snoc_false f _ (Event.SetTextureColorMod texture r g b) (hf _ rfl)]

theorem update_asteroid_countP {F : FloatArith} (context : SDLContext) (randf : Nat → ℚ)
    (i : Fin NUM_ASTEROIDS) (world : World) (f : Event → Bool)
    (hf : ∀ e, e.is_collision = false → f e = false) :
    (update_asteroid F context randf i world).trace.countP f = world.trace.countP f := by
  obtain ⟨-, -, -, hmt, -, -⟩ := asteroid_move_frame context i world
  obtain ⟨-, -, -, hdt, -, -⟩ := asteroid_draw_and_recycle_frame context randf i
    (asteroid_check_player F context randf i (asteroid_move F context i world))
  have hcheck : (asteroid_check_player F context randf i
      (asteroid_move F context i world)).trace.countP f =
      (asteroid_move F context i world).trace.countP f := by
    by_cases hnear : distance_between_sq F
        ((asteroid_move F context i world).game_state.asteroids i).position
        (asteroid_move F context i world).game_state.player.position < collision_distance_sq
    · rw [asteroid_check_player_near context randf i _ hnear,
        (reset_game_spec context randf _).2.2.2.2.2]
      exact countP_snoc_false f _ _ (hf _ rfl)
    · rw [(asteroid_check_player_far context randf i _ hnear).2.2]
      exact countP_snoc_false f _ _ (hf _ rfl)
  show (asteroid_draw_and_recycle F context randf i _).trace.countP f = _
  rw [hdt, countP_snoc_false f _ (Event.RenderTexture _ _ _) (hf _ rfl), hcheck, hmt]

theorem update_asteroids_countP {F : FloatArith} (context : SDLContext) (randf : Nat → ℚ)
    (world : World)
    (f : Event → Bool) (hf : ∀ e, e.is_collision = false → f e = false) :
    (update_asteroids F context randf world).trace.countP f = world.trace.countP f := by
  apply foldl_invariant (fun w : World => w.trace.countP f = world.trace.countP f)
  · rfl
  · intro w a hw
    exact (update_asteroid_countP context randf a w f hf).trans hw

theorem advance_projectile_countP {F : FloatArith} (context : SDLContext)
    (p : Fin PROJECTILE_POOL_SIZE)
    (world : World) (f : Event → Bool) (hf : ∀ e, e.is_collision = false → f e = false) :
    (advance_projectile F context p world).trace.countP f = world.trace.countP f := by
  have htrace : ∃ r g b a rect, (advance_projectile F context p world).trace =
      (world.trace ++ [Event.SetRenderDrawColor r g b a]) ++ [Event.RenderFillRect rect] :=
    ⟨_, _, _, _, _, by rw [List.append_assoc]; rfl⟩
  obtain ⟨r, g, b, a, rect, ht⟩ := htrace
  rw [ht, countP_snoc_false f _ (Event.RenderFillRect rect) (hf _ rfl),
    countP_snoc_false f _ (Event.SetRenderDrawColor r g b a) (hf _ rfl)]

/-- An iteration of the projectile loop records at most one collision, and only for an
active projectile and only as a collision of that slot. -/
theorem update_projectile_countP {F : FloatArith} (context : SDLContext) (randf : Nat → ℚ)
    (p : Fin PROJECTILE_POOL_SIZE) (world : World) (f : Event → Bool)
    (hf : ∀ e, e.is_collision = false → f e = false) :
    (update_projectile F context randf p world).trace.countP f = world.trace.countP f ∨
    ((world.game_state.projectiles p).active = true ∧
      ∃ m, f (Event.Collision p m) = true ∧
        (update_projectile F context randf p world).trace.countP f =
          world.trace.countP f + 1) := by
  rcases update_projectile_cases context randf p world with ⟨h, -⟩ | ⟨hactive, h | ⟨m, h⟩⟩
  · left; rw [h]
  · left; rw [h]; exact advance_projectile_countP context p world f hf
  · rw [h, (collision_hit_frame _ _ _ _ _).2.2, countP_snoc,
      advance_projectile_countP context p world f hf]
    by_cases hfm : f (Event.Collision p m) = true
    · right
      exact ⟨hactive, m, hfm, by rw [if_pos hfm]⟩
    · left
      rw [if_neg hfm, Nat.add_zero]

theorem hits_ignores_output (k : Fin NUM_ASTEROIDS) :
    ∀ e : Event, e.is_collision = false → Event.hits k e = false := by
  intro e he
  cases e <;> first | rfl | exact Bool.noConfusion he

theorem scored_by_ignores_output (p : Fin PROJECTILE_POOL_SIZE) :
    ∀ e : Event, e.is_collision = false → Event.scored_by p e = false := by
  intro e he
  cases e <;> first | rfl | exact Bool.noConfusion he

/-- The projectile loop over distinct slots records at most one collision per listed slot
that is active at the start of the loop. -/
theorem update_projectiles_countP_le {F : FloatArith} (context : SDLContext) (randf : Nat → ℚ)
    (slots : List (Fin PROJECTILE_POOL_SIZE)) (world : World) (hnodup : slots.Nodup)
    (f : Event → Bool) (hf : ∀ e, e.is_collision = false → f e = false) :
    (slots.foldl (fun world p => update_projectile F context randf p world) world).trace.countP f ≤
      world.trace.countP f + slots.countP (fun j => (world.game_state.projectiles j).active) := by
  induction slots generalizing world with
  | nil => simp
  | cons p slots ih =>
    rw [List.foldl_cons]
    rw [List.nodup_cons] at hnodup
    have hrest : slots.countP (fun j =>
        ((update_projectile F context randf p world).game_state.projectiles j).active) =
        slots.countP (fun j => (world.game_state.projectiles j).active) := by
      apply List.countP_congr
      intro j hj
      have hjp : j ≠ p := by
        rintro rfl
        exact hnodup.1 hj
      rw [update_projectile_other context randf p j world hjp]
    have hih := ih (update_projectile F context randf p world) hnodup.2
    rw [hrest] at hih
    rw [List.countP_cons]
    rcases update_projectile_countP context randf p world f hf with h | ⟨hactive, -, -, h⟩
    · rw [h] at hih
      omega
    · rw [h] at hih
      simp only [hactive, if_true]
      omega

/-- The projectile loop over slots other than `p` records no collision of `p`. -/
theorem update_projectiles_score_count_other {F : FloatArith} (context : SDLContext)
    (randf : Nat → ℚ)
    (slots : List (Fin PROJECTILE_POOL_SIZE)) (world : World) (p : Fin PROJECTILE_POOL_SIZE)
    (hp : p ∉ slots) :
    score_count p (slots.foldl (fun world q => update_projectile F context randf q world)
      world).trace = score_count p world.trace := by
  induction slots generalizing world with
  | nil => rfl
  | cons q slots ih =>
    rw [List.foldl_cons, ih _ (fun h => hp (List.mem_cons_of_mem _ h))]
    have hqp : q ≠ p := fun h => hp (h ▸ List.mem_cons_self _ _)
    rcases update_projectile_countP context randf q world (Event.scored_by p)
        (scored_by_ignores_output p) with h | ⟨-, m, hm, -⟩
    · exact h
    · simp [Event.scored_by, hqp] at hm

/-- The projectile loop over distinct slots records at most one collision of slot `p`. -/
theorem update_projectiles_score_count_le {F : FloatArith} (context : SDLContext) (randf : Nat → ℚ)
    (slots : List (Fin PROJECTILE_POOL_SIZE)) (world : World) (p : Fin PROJECTILE_POOL_SIZE)
    (hnodup : slots.Nodup) :
    score_count p (slots.foldl (fun world q => update_projectile F context randf q world)
      world).trace ≤ score_count p world.trace + 1 := by
  induction slots generalizing world with
  | nil => exact Nat.le_succ _
  | cons q slots ih =>
    rw [List.foldl_cons]
    rw [List.nodup_cons] at hnodup
    by_cases hqp : q = p
    · subst hqp
      rw [update_projectiles_score_count_other context randf slots _ q hnodup.1]
      rcases update_projectile_countP context randf q world (Event.scored_by q)
          (scored_by_ignores_output q) with h | ⟨-, -, -, h⟩
      · exact h.le.trans (Nat.le_succ _)
      · exact h.le
    · refine (ih _ hnodup.2).trans ?_
      rcases update_projectile_countP context randf q world (Event.scored_by p)
          (scored_by_ignores_output p) with h | ⟨-, m, hm, -⟩
      · exact Nat.add_le_add_right h.le 1
      · simp [Event.scored_by, hqp] at hm

/-- C8 (as stated, refuted): with every draw one half, projectile 0 hits asteroid 0 where it
starts, asteroid 0 respawns at `(300, -64)`, and projectile 1, which waits there, hits it
again in the same call of `update`: slot 0 is the hit target twice and the score grows by
2. Neither projectile is off screen after its move. -/
theorem update_same_asteroid_hit_twice :
    (∀ n, 0 ≤ ex_randf n ∧ ex_randf n < 1) ∧
    ex_double_hit_world.trace = [] ∧
    ex_double_hit_world.game_state.player_score = 0 ∧
    (∀ p, (ex_double_hit_world.game_state.projectiles p).active = true →
      ¬ ((ex_double_hit_world.game_state.projectiles p).position.y +
            ex_context.delta * (ex_double_hit_world.game_state.projectiles p).velocity +
            (ex_double_hit_world.game_state.projectiles p).size < 0 ∨
          (ex_double_hit_world.game_state.projectiles p).position.y +
            ex_context.delta * (ex_double_hit_world.game_state.projectiles p).velocity >
            ex_context.window_h)) ∧
    (update FloatArith.exact ex_context ex_randf ex_double_hit_world).trace.filter Event.is_collision =
      [Event.Collision 0 0, Event.Collision 1 0] ∧
    hit_count 0 (update FloatArith.exact ex_context ex_randf ex_double_hit_world).trace = 2 ∧
    (update FloatArith.exact ex_context ex_randf ex_double_hit_world).game_state.player_score = 2 := by
  refine ⟨fun n => ?_, rfl, rfl, ?_, ?_, ?_, ?_⟩
  · show (0 : ℚ) ≤ 1 / 2 ∧ (1 / 2 : ℚ) < 1
    constructor <;> norm_num
  · decide!
  · decide!
  · decide!
  · decide!

/-- C8 (amended): within one call of `update` each projectile slot `p` scores at most one
collision, and asteroid slot `k` is the hit target of at most as many scoring collisions as
there are projectiles active at the start of the call (at most 16); nothing limits slot `k`
to one hit. -/
theorem update_hits_per_projectile (F : FloatArith) (context : SDLContext) (randf : Nat → ℚ)
    (world : World) (k : Fin NUM_ASTEROIDS) (p : Fin PROJECTILE_POOL_SIZE) :
    score_count p (update F context randf world).trace ≤ score_count p world.trace + 1 ∧
    hit_count k (update F context randf world).trace ≤
      hit_count k world.trace + active_projectile_count world.game_state ∧
    active_projectile_count world.game_state ≤ 16 := by
  have hscore0 : score_count p
      (update_asteroids F context randf (update_player F context world)).trace =
      score_count p world.trace :=
    (update_asteroids_countP context randf _ _ (scored_by_ignores_output p)).trans
      (update_player_countP context world _ (scored_by_ignores_output p))
  have hhit0 : hit_count k
      (update_asteroids F context randf (update_player F context world)).trace =
      hit_count k world.trace :=
    (update_asteroids_countP context randf _ _ (hits_ignores_output k)).trans
      (update_player_countP context world _ (hits_ignores_output k))
  have hactive : (List.finRange PROJECTILE_POOL_SIZE).countP (fun j =>
      ((update_asteroids F context randf
        (update_player F context world)).game_state.projectiles j).active) ≤
      active_projectile_count world.game_state := by
    apply List.countP_mono_left
    intro j _ hj
    rcases update_asteroids_projectile context randf (update_player F context world) j with h | h
    · rw [h, (update_player_frame context world).2.1] at hj
      exact hj
    · rw [h] at hj
      exact Bool.noConfusion hj
  refine ⟨?_, ?_, ?_⟩
  · have h := @update_projectiles_score_count_le F context randf
      (List.finRange PROJECTILE_POOL_SIZE)
      (update_asteroids F context randf (update_player F context world)) p (List.nodup_finRange _)
    rw [hscore0] at h
    exact h
  · have h := @update_projectiles_countP_le F context randf
      (List.finRange PROJECTILE_POOL_SIZE)
      (update_asteroids F context randf (update_player F context world)) (List.nodup_finRange _)
      (Event.hits k) (hits_ignores_output k)
    have h' : hit_count k (update F context randf world).trace ≤
        hit_count k (update_asteroids F context randf (update_player F context world)).trace +
          (List.finRange PROJECTILE_POOL_SIZE).countP (fun j =>
            ((update_asteroids F context randf
              (update_player F context world)).game_state.projectiles j).active) := h
    rw [hhit0] at h'
    exact h'.trans (Nat.add_le_add_left hactive _)
  · unfold active_projectile_count
    exact (List.countP_le_length _).trans (by simp)

/-- C12 (as stated, refuted): the player is at the top of the window, asteroid 0 has just
been respawned above it, and the fire key puts a shot in slot 0 at `(299, -6)`, clear of
every asteroid. In the next call of `update` the shot moves to `y = -50/3`, so
`y + size = -2/3 < 0` and the off-screen check deactivates it; the collision loop of the same
iteration still runs, finds asteroid 0, adds 1 to the score and respawns that asteroid. -/
theorem update_off_screen_projectile_still_scores :
    ex_top_player_world.game_state.asteroids 0 =
      respawn_asteroid FloatArith.exact ex_context ex_asteroid (1 / 2) (1 / 2) ∧
    (spawn_projectile FloatArith.exact ex_context ex_top_player_world).1 = some 0 ∧
    (ex_top_shot_world.game_state.projectiles 0).position = ⟨299, -6⟩ ∧
    (ex_top_shot_world.game_state.projectiles 0).active = true ∧
    (∀ k, collides FloatArith.exact (ex_top_shot_world.game_state.asteroids k)
      (ex_top_shot_world.game_state.projectiles 0) = false) ∧
    ((update_asteroids FloatArith.exact ex_context ex_randf
      (update_player FloatArith.exact ex_context
        ex_top_shot_world)).game_state.projectiles 0).active = true ∧
    (ex_top_shot_world.game_state.projectiles 0).position.y +
        ex_context.delta * (ex_top_shot_world.game_state.projectiles 0).velocity +
        (ex_top_shot_world.game_state.projectiles 0).size < 0 ∧
    ((advance_projectile FloatArith.exact ex_context 0
      (update_asteroids FloatArith.exact ex_context ex_randf
        (update_player FloatArith.exact ex_context
          ex_top_shot_world))).game_state.projectiles 0).active = false ∧
    (update_asteroids FloatArith.exact ex_context ex_randf
      (update_player FloatArith.exact ex_context
        ex_top_shot_world)).game_state.player_score = 0 ∧
    (update FloatArith.exact ex_context ex_randf ex_top_shot_world).game_state.player_score =
      1 ∧
    (update FloatArith.exact ex_context ex_randf ex_top_shot_world).trace.filter
      Event.is_collision = [Event.Collision 0 0] ∧
    (update FloatArith.exact ex_context ex_randf ex_top_shot_world).game_state.asteroids 0 ≠
      (update_asteroids FloatArith.exact ex_context ex_randf
        (update_player FloatArith.exact ex_context
          ex_top_shot_world)).game_state.asteroids 0 := by
  decide!

/-- C12 (amended): whatever the `float` arithmetic `F`, an active projectile that the
off-screen check deactivates (after its move, `y + size < 0` or `y > window_h`, as the code
computes them) and that the collision test of the same iteration finds clear of every
asteroid leaves the score and every asteroid unchanged, records no collision, and is left
inactive. -/
theorem update_projectile_off_screen_no_hit (F : FloatArith) (context : SDLContext)
    (randf : Nat → ℚ) (p : Fin PROJECTILE_POOL_SIZE) (world : World)
    (hactive : (world.game_state.projectiles p).active = true)
    (hoff : F.add (F.add (world.game_state.projectiles p).position.y
          (F.mul context.delta (world.game_state.projectiles p).velocity))
          (world.game_state.projectiles p).size < 0 ∨
        F.add (world.game_state.projectiles p).position.y
          (F.mul context.delta (world.game_state.projectiles p).velocity) > context.window_h)
    (hnone : ∀ k, collides F (world.game_state.asteroids k)
      ((advance_projectile F context p world).game_state.projectiles p) = false) :
    (update_projectile F context randf p world).game_state.player_score =
      world.game_state.player_score ∧
    (update_projectile F context randf p world).game_state.asteroids =
      world.game_state.asteroids ∧
    (update_projectile F context randf p world).trace.filter Event.is_collision =
      world.trace.filter Event.is_collision ∧
    ((update_projectile F context randf p world).game_state.projectiles p).active = false := by
  obtain ⟨hast, hscore, -, -, -⟩ := @advance_projectile_frame F context p world
  have hupd : update_projectile F context randf p world =
      check_collisions F context randf p (List.finRange NUM_ASTEROIDS)
        (advance_projectile F context p world) := by
    simp only [update_projectile, hactive, if_true]
  have htrace : (advance_projectile F context p world).trace.filter Event.is_collision =
      world.trace.filter Event.is_collision := by
    have ht : ∃ r g b a rect, (advance_projectile F context p world).trace =
        world.trace ++ [Event.SetRenderDrawColor r g b a, Event.RenderFillRect rect] :=
      ⟨_, _, _, _, _, rfl⟩
    obtain ⟨r, g, b, a, rect, ht⟩ := ht
    rw [ht, List.filter_append]
    simp [Event.is_collision]
  rcases check_collisions_spec context randf p (List.finRange NUM_ASTEROIDS)
      (advance_projectile F context p world) (List.pairwise_lt_finRange _) with
    ⟨-, heq⟩ | ⟨m, -, hcm, -, -⟩
  · rw [hupd, heq]
    refine ⟨hscore, hast, htrace, ?_⟩
    rw [advance_projectile_self, if_pos hoff]
  · rw [hast, hnone m] at hcm
    exact Bool.noConfusion hcm

theorem update_projectile_off_screen_no_hit_witness :
    (ex_leaving_world.game_state.projectiles 0).active = true ∧
    ((ex_leaving_world.game_state.projectiles 0).position.y +
          ex_context.delta * (ex_leaving_world.game_state.projectiles 0).velocity +
          (ex_leaving_world.game_state.projectiles 0).size < 0 ∨
        (ex_leaving_world.game_state.projectiles 0).position.y +
          ex_context.delta * (ex_leaving_world.game_state.projectiles 0).velocity >
          ex_context.window_h) ∧
    (∀ k, collides FloatArith.exact (ex_leaving_world.game_state.asteroids k)
      ((advance_projectile FloatArith.exact ex_context 0
        ex_leaving_world).game_state.projectiles 0) = false) ∧
    (update_projectile FloatArith.exact ex_context ex_randf 0
      ex_leaving_world).game_state.player_score = ex_leaving_world.game_state.player_score ∧
    (update_projectile FloatArith.exact ex_context ex_randf 0
      ex_leaving_world).game_state.asteroids = ex_leaving_world.game_state.asteroids ∧
    ((update_projectile FloatArith.exact ex_context ex_randf 0
      ex_leaving_world).game_state.projectiles 0).active = false :=
  have h := update_projectile_off_screen_no_hit FloatArith.exact ex_context ex_randf 0
    ex_leaving_world rfl (by decide!) (by decide!)
  ⟨rfl, by decide!, by decide!, h.1, h.2.1, h.2.2.2⟩

end E01

namespace E00

theorem target_framerate_ns_eq : target_framerate_ns = 16666666 := by decide

theorem frame_pacing_hybrid (time_elapsed_work : Int)
    (h : time_elapsed_work < target_framerate_ns) :
    frame_pacing 4 time_elapsed_work =
      [PacerCall.DelayNS (hybrid_sleep_ns time_elapsed_work),
       PacerCall.BusyWait target_framerate_ns] := by
  simp [frame_pacing, hybrid_sleep_ns, h]

/-- With at least one millisecond of budget left, the hybrid strategy sleeps for the
remaining budget less one millisecond. -/
theorem hybrid_sleep_ns_with_margin (time_elapsed_work : Int) (h0 : 0 ≤ time_elapsed_work)
    (h1 : time_elapsed_work ≤ target_framerate_ns - 1000000) :
    (hybrid_sleep_ns time_elapsed_work : Int) =
      target_framerate_ns - time_elapsed_work - 1000000 ∧
    (hybrid_sleep_ns time_elapsed_work : Int) < target_framerate_ns - time_elapsed_work := by
  have ht := target_framerate_ns_eq
  unfold hybrid_sleep_ns to_uint64 to_sint64
  omega

/-- With less than one millisecond of budget left, the subtraction goes below zero and
`SDL_DelayNS` receives the value wrapped around `2 ^ 64`, far above the remaining budget. -/
theorem hybrid_sleep_ns_wraps (time_elapsed_work : Int)
    (h0 : target_framerate_ns - 1000000 < time_elapsed_work)
    (h1 : time_elapsed_work < target_framerate_ns) :
    (hybrid_sleep_ns time_elapsed_work : Int) =
      2 ^ 64 + (target_framerate_ns - time_elapsed_work - 1000000) ∧
    target_framerate_ns - time_elapsed_work < (hybrid_sleep_ns time_elapsed_work : Int) := by
  have ht := target_framerate_ns_eq
  unfold hybrid_sleep_ns to_uint64 to_sint64
  omega

/-- C11 (the code at the failing input): with 16 000 000 ns of work done, inside the frame
budget of 16 666 666 ns, the hybrid strategy (`delay_type` 4) passes
`2 ^ 64 - 333334 = 18446744073709218282` to `SDL_DelayNS`: not the remaining budget less
one millisecond, and more than the remaining budget of 666 666 ns. -/
theorem hybrid_sleep_outlasts_budget :
    (0 : Int) ≤ 16000000 ∧ (16000000 : Int) < target_framerate_ns ∧
    frame_pacing 4 16000000 =
      [PacerCall.DelayNS 18446744073709218282, PacerCall.BusyWait 16666666] ∧
    target_framerate_ns - 16000000 = 666666 ∧
    ((18446744073709218282 : Nat) : Int) ≠ target_framerate_ns - 16000000 - 1000000 ∧
    ¬ (((18446744073709218282 : Nat) : Int) < target_framerate_ns - 16000000) := by
  decide

end E00
